import Mathlib

/-!
Shallow embedding of the simulation core of the Santa-Pirate-Game repository
(src/App.tsx and src/services/gemini.ts), together with theorems settling the
frozen claims about its specification.

Modelling conventions:
* JavaScript numbers are modelled as real numbers (`ℝ`).
* `Math.random()` draws are passed in explicitly as oracle parameters
  (streams / records of reals); where the code relies on the contract of
  `Math.random()` the theorems assume the draw lies in `[0, 1)`.
* `Math.pow(b, dt)` is modelled with real exponentiation (`rpow`), which the
  `^` notation below denotes for real exponents.
* In-place mutation of the single world object is modelled as explicit state
  passing over a `GameState` record; JavaScript array `push` / `splice` become
  list append / `List.set` / `List.eraseIdx`.
* `setTimeout(() => spawnEnemy(), d)` is modelled by recording the delay in a
  `pendingRespawns` list (the delayed call itself is outside the frame step).
* The asynchronous narrative fetch of `deliverPresent` is modelled by a
  `pendingFetches` counter plus an explicit continuation event
  (`fetchContinuation`), mirroring the code after the `await`.
-/

namespace SantaPirate

noncomputable section

open Real

/-! ## Game constants (src/App.tsx lines 27-36) -/

def WORLD_SIZE : ℝ := 4000
def SHIP_THRUST : ℝ := 0.15
def TURN_TORQUE : ℝ := 0.0015
def MAX_ANGULAR_VELOCITY : ℝ := 0.025
def ANGULAR_DRAG : ℝ := 0.96
def FORWARD_DRAG : ℝ := 0.99
def SIDEWAYS_DRAG : ℝ := 0.92
def CANNON_SPEED : ℝ := 9
def CANNON_COOLDOWN : ℝ := 50
def ENEMY_COOLDOWN : ℝ := 90

/-! ## Data model (src/App.tsx lines 10-24) -/

@[ext] structure Vec where
  x : ℝ
  y : ℝ


inductive ShipType where
  | player
  | pirate
  | elite
deriving DecidableEq

inductive Owner where
  | player
  | enemy
deriving DecidableEq

inductive PType where
  | smoke
  | fire
  | water
  | spark
  | glint
  | muzzle
deriving DecidableEq

@[ext] structure Ship where
  id : ℝ
  x : ℝ
  y : ℝ
  radius : ℝ
  rotation : ℝ
  active : Bool
  velocity : Vec
  angularVelocity : ℝ
  speed : ℝ
  health : ℝ
  maxHealth : ℝ
  cooldown : ℝ
  stype : ShipType
  wobbleOffset : ℝ

@[ext] structure Projectile where
  id : ℝ
  x : ℝ
  y : ℝ
  radius : ℝ
  rotation : ℝ
  active : Bool
  velocity : Vec
  owner : Owner
  damage : ℝ

@[ext] structure Particle where
  id : ℝ
  x : ℝ
  y : ℝ
  radius : ℝ
  rotation : ℝ
  active : Bool
  velocity : Vec
  life : ℝ
  maxLife : ℝ
  color : String
  size : ℝ
  ptype : PType

@[ext] structure Island where
  id : ℝ
  x : ℝ
  y : ℝ
  radius : ℝ
  rotation : ℝ
  active : Bool
  name : String
  delivered : Bool
  colorHue : ℝ -- the hue drawn into the `hsl(...)` color string (presentation)
  variant : ℕ

/-- The whole mutable world of the game loop: the `gameState` ref plus the
React state (`score`, `gameOver`, `message`, `loadingMessage`) that the
update loop reads and writes, and the in-flight narrative fetches. -/
@[ext] structure GameState where
  player : Ship
  projectiles : List Projectile
  particles : List Particle
  enemies : List Ship
  islands : List Island
  shake : ℝ -- camera.shake (camera x/y smoothing is presentation only)
  lastTime : ℝ
  time : ℝ
  frameCount : ℕ
  score : ℕ
  gameOver : Bool
  message : Option String
  loadingMessage : Bool
  pendingFetches : ℕ -- number of unresolved generatePirateEvent promises
  pendingRespawns : List ℕ -- delays of scheduled setTimeout(spawnEnemy) calls

/-- The five logical key states read by the update loop. -/
structure Keys where
  w : Bool
  a : Bool
  s : Bool
  d : Bool
  space : Bool

/-! ## Helpers (src/App.tsx lines 38-40, 612-621)

`randomRange r min max` is `randomRange(min, max)` where `r` is the
`Math.random()` draw. -/

def lerp (start finish t : ℝ) : ℝ := start * (1 - t) + finish * t

def randomRange (r min max : ℝ) : ℝ := r * (max - min) + min

/-- `checkCollision` (src/App.tsx lines 618-621): circle versus circle with
the forgiveness margin of 5.  `Math.hypot` is `Real.sqrt` of the sum of
squares. -/
def checkCollision (x1 y1 r1 x2 y2 r2 : ℝ) : Prop :=
  Real.sqrt ((x1 - x2) ^ 2 + (y1 - y2) ^ 2) < r1 + r2 - 5

instance checkCollision.decidable (x1 y1 r1 x2 y2 r2 : ℝ) :
    Decidable (checkCollision x1 y1 r1 x2 y2 r2) := Classical.dec _

/-! ## Angle helpers for the AI controller (src/App.tsx lines 318-324)

`Math.atan2` and the two `while` loops normalising `angleDiff`. -/

/-- JavaScript `Math.atan2(y, x)`. -/
def atan2 (y x : ℝ) : ℝ :=
  if 0 < x then Real.arctan (y / x)
  else if x < 0 then
    (if 0 ≤ y then Real.arctan (y / x) + π else Real.arctan (y / x) - π)
  else
    (if 0 < y then π / 2 else if y < 0 then -(π / 2) else 0)

private lemma wrap_measure_decr (a : ℝ) (h : a < -π) :
    (⌈(-π - (a + 2 * π)) / (2 * π)⌉).toNat < (⌈(-π - a) / (2 * π)⌉).toNat := by
  have hπ : (0:ℝ) < 2 * π := by positivity
  have hpos : 0 < (-π - a) / (2 * π) := by
    apply div_pos _ hπ
    linarith
  have hceil : 0 < ⌈(-π - a) / (2 * π)⌉ := Int.ceil_pos.mpr hpos
  have heq : (-π - (a + 2 * π)) / (2 * π) = (-π - a) / (2 * π) - 1 := by
    field_simp
    ring
  rw [heq, Int.ceil_sub_one]
  exact (Int.toNat_lt_toNat hceil).mpr (by omega)

/-- First normalisation loop: `while (angleDiff < -Math.PI) angleDiff += Math.PI * 2`. -/
def wrapUp (a : ℝ) : ℝ :=
  if h : a < -π then wrapUp (a + 2 * π) else a
termination_by (⌈(-π - a) / (2 * π)⌉).toNat
decreasing_by exact wrap_measure_decr a h

private lemma wrapDown_measure_decr (a : ℝ) (h : π < a) :
    (⌈(a - 2 * π - π) / (2 * π)⌉).toNat < (⌈(a - π) / (2 * π)⌉).toNat := by
  have hπ : (0:ℝ) < 2 * π := by positivity
  have hpos : 0 < (a - π) / (2 * π) := by
    apply div_pos _ hπ
    linarith
  have hceil : 0 < ⌈(a - π) / (2 * π)⌉ := Int.ceil_pos.mpr hpos
  have heq : (a - 2 * π - π) / (2 * π) = (a - π) / (2 * π) - 1 := by
    field_simp
    ring
  rw [heq, Int.ceil_sub_one]
  exact (Int.toNat_lt_toNat hceil).mpr (by omega)

/-- Second normalisation loop: `while (angleDiff > Math.PI) angleDiff -= Math.PI * 2`. -/
def wrapDown (a : ℝ) : ℝ :=
  if h : π < a then wrapDown (a - 2 * π) else a
termination_by (⌈(a - π) / (2 * π)⌉).toNat
decreasing_by exact wrapDown_measure_decr a h

/-- The two normalisation loops in sequence (src/App.tsx lines 323-324). -/
def wrapAngle (a : ℝ) : ℝ := wrapDown (wrapUp a)

/-! ## Motion model: `applyShipPhysics` (src/App.tsx lines 187-242)

The in-place mutation of the ship is modelled as a pure ship transform; the
wake-particle emission at the end of the source function (lines 237-241) is
modelled by `shipWake` below and appended by the calling phase. -/

def applyShipPhysics (ship : Ship) (thrust turnLeft turnRight : Bool) (dt : ℝ) : Ship :=
  -- 1. Angular physics
  let av0 := if turnLeft then ship.angularVelocity - TURN_TORQUE * dt else ship.angularVelocity
  let av1 := if turnRight then av0 + TURN_TORQUE * dt else av0
  let av2 := av1 * ANGULAR_DRAG ^ dt
  let av3 := max (-MAX_ANGULAR_VELOCITY) (min MAX_ANGULAR_VELOCITY av2)
  let rot := ship.rotation + av3 * dt
  -- 2. Linear thrust
  let v1 := if thrust then
      Vec.mk (ship.velocity.x + Real.cos rot * SHIP_THRUST * dt)
             (ship.velocity.y + Real.sin rot * SHIP_THRUST * dt)
    else ship.velocity
  -- 3. Keel physics
  let fwdX := Real.cos rot
  let fwdY := Real.sin rot
  let rightX := -Real.sin rot
  let rightY := Real.cos rot
  let dotForward := v1.x * fwdX + v1.y * fwdY
  let dotRight := v1.x * rightX + v1.y * rightY
  let newForwardMag := dotForward * FORWARD_DRAG ^ dt
  let newRightMag := dotRight * SIDEWAYS_DRAG ^ dt
  let v2 := Vec.mk (newForwardMag * fwdX + newRightMag * rightX)
                   (newForwardMag * fwdY + newRightMag * rightY)
  -- 4. Position integration
  { ship with
      angularVelocity := av3
      rotation := rot
      velocity := v2
      x := ship.x + v2.x * dt
      y := ship.y + v2.y * dt }

/-- The oracle draws consumed by one potential wake emission:
the `Math.random() > 0.8` coin, the two `randomRange(3, 8)` sizes and the two
particle ids. -/
structure WakeRnd where
  coin : ℝ
  s1 : ℝ
  s2 : ℝ
  id1 : ℝ
  id2 : ℝ

/-- `createWake` (src/App.tsx lines 244-269): two water particles behind the ship. -/
def createWake (ship : Ship) (r : WakeRnd) : List Particle :=
  let angle := ship.rotation + π
  [{ id := r.id1
     x := ship.x + Real.cos (angle + 0.5) * 20
     y := ship.y + Real.sin (angle + 0.5) * 20
     radius := 0, rotation := 0, active := true
     velocity := Vec.mk 0 0
     life := 0.8, maxLife := 0.8
     color := "rgba(255, 255, 255, 0.3)"
     size := randomRange r.s1 3 8, ptype := .water },
   { id := r.id2
     x := ship.x + Real.cos (angle - 0.5) * 20
     y := ship.y + Real.sin (angle - 0.5) * 20
     radius := 0, rotation := 0, active := true
     velocity := Vec.mk 0 0
     life := 0.8, maxLife := 0.8
     color := "rgba(255, 255, 255, 0.3)"
     size := randomRange r.s2 3 8, ptype := .water }]

/-- Wake emission at the end of `applyShipPhysics` (src/App.tsx lines 237-241),
applied to the post-physics ship. -/
def shipWake (ship : Ship) (r : WakeRnd) : List Particle :=
  if Real.sqrt (ship.velocity.x ^ 2 + ship.velocity.y ^ 2) > 1 ∧ r.coin > 0.8 then
    createWake ship r
  else []

/-! ## Combat system: explosions and firing (src/App.tsx lines 623-752) -/

/-- The five draws consumed by one explosion particle: the two velocity draws,
the life draw, the size draw and the particle id. -/
structure PartRnd where
  vx : ℝ
  vy : ℝ
  life : ℝ
  size : ℝ
  pid : ℝ

/-- Oracle for one `createExplosion` call: one `PartRnd` per fire particle and
one per smoke particle. -/
structure ExpRnd where
  fire : ℕ → PartRnd
  smoke : ℕ → PartRnd

/-- `createExplosion` (src/App.tsx lines 623-649): `count` fire particles and
`count / 2` smoke particles.  The JS loop `for (i = 0; i < count / 2; i++)`
over the float `count / 2` runs `⌈count / 2⌉ = (count + 1) / 2` times. -/
def createExplosion (r : ExpRnd) (x y : ℝ) (red : Bool) (count : ℕ) : List Particle :=
  ((List.range count).map fun i =>
    { id := (r.fire i).pid
      x := x, y := y
      radius := 0, rotation := 0, active := true
      velocity := Vec.mk (((r.fire i).vx - 0.5) * 8) (((r.fire i).vy - 0.5) * 8)
      life := randomRange (r.fire i).life 0.5 1.0, maxLife := 1
      color := if red then "#ef4444" else "#f97316"
      size := randomRange (r.fire i).size 3 6
      ptype := .fire })
  ++ ((List.range ((count + 1) / 2)).map fun i =>
    { id := (r.smoke i).pid
      x := x, y := y
      radius := 0, rotation := 0, active := true
      velocity := Vec.mk (((r.smoke i).vx - 0.5) * 4) (((r.smoke i).vy - 0.5) * 4)
      life := randomRange (r.smoke i).life 1.0 2.0, maxLife := 2
      color := "rgba(100,100,100,0.5)"
      size := randomRange (r.smoke i).size 5 12
      ptype := .smoke })

/-- The draws consumed by one `spawnProjectile` call: muzzle-flash size and id,
smoke size and id, and the projectile id. -/
structure ShotRnd where
  msize : ℝ
  mid : ℝ
  ssize : ℝ
  sid : ℝ
  pid : ℝ

/-- `spawnProjectile` (src/App.tsx lines 724-752): pushes one muzzle-flash
particle, one smoke particle and one projectile.  Returned as
(particles pushed, projectile pushed). -/
def spawnProjectile (x y angle : ℝ) (owner : Owner) (r : ShotRnd) :
    List Particle × Projectile :=
  ([{ id := r.mid, x := x, y := y, radius := 0, rotation := 0, active := true
      velocity := Vec.mk (Real.cos angle * 2) (Real.sin angle * 2)
      life := 0.3, maxLife := 0.3, color := "rgba(255,200,100,0.8)"
      size := randomRange r.msize 5 8, ptype := .muzzle },
    { id := r.sid, x := x, y := y, radius := 0, rotation := 0, active := true
      velocity := Vec.mk (Real.cos angle) (Real.sin angle)
      life := 0.6, maxLife := 0.6, color := "rgba(200,200,200,0.4)"
      size := randomRange r.ssize 4 7, ptype := .smoke }],
   { id := r.pid, x := x, y := y, radius := 3, rotation := 0, active := true
     velocity := Vec.mk (Real.cos angle * CANNON_SPEED) (Real.sin angle * CANNON_SPEED)
     owner := owner, damage := 10 })

/-- Oracle for one cannon shot: the spread draw (`Math.random()` in
`(Math.random() - 0.5) * 0.2`) plus the `spawnProjectile` draws. -/
structure CannonRnd where
  spread : ℝ
  shot : ShotRnd

/-- `fireCannons` (src/App.tsx lines 687-722): one volley of 3 cannons on one
side, at longitudinal hull offsets `[-15, -5, 5]`, lateral offset 16 towards
the firing side, fire direction `rotation + angleOffset` plus a random spread
of `(r - 0.5) * 0.2`.  Returns (particles pushed, projectiles pushed) in push
order. -/
def fireCannons (ship : Ship) (owner : Owner) (angleOffset : ℝ)
    (r : Fin 3 → CannonRnd) : List Particle × List Projectile :=
  let longitudinalOffsets : Fin 3 → ℝ := ![-15, -5, 5]
  let lateralDist : ℝ := 16
  let fwdX := Real.cos ship.rotation
  let fwdY := Real.sin ship.rotation
  let rightX := -Real.sin ship.rotation
  let rightY := Real.cos ship.rotation
  let sideDir : ℝ := if angleOffset < 0 then -1 else 1
  let shot := fun (k : Fin 3) =>
    let fwdOffset := longitudinalOffsets k
    let spawnX := ship.x + fwdX * (-fwdOffset) + rightX * (sideDir * lateralDist)
    let spawnY := ship.y + fwdY * (-fwdOffset) + rightY * (sideDir * lateralDist)
    let fireAngle := ship.rotation + angleOffset
    let spread := ((r k).spread - 0.5) * 0.2
    spawnProjectile spawnX spawnY (fireAngle + spread) owner (r k).shot
  ((shot 0).1 ++ (shot 1).1 ++ (shot 2).1, [(shot 0).2, (shot 1).2, (shot 2).2])

/-- `fireChasers` (src/App.tsx lines 667-685): two forward-facing guns at
lateral offsets `[-5, 5]`, longitudinal offset 32, direction exactly the
heading. -/
def fireChasers (ship : Ship) (owner : Owner) (r : Fin 2 → ShotRnd) :
    List Particle × List Projectile :=
  let offsets : Fin 2 → ℝ := ![-5, 5]
  let fwdX := Real.cos ship.rotation
  let fwdY := Real.sin ship.rotation
  let rightX := -Real.sin ship.rotation
  let rightY := Real.cos ship.rotation
  let shot := fun (k : Fin 2) =>
    let offX := offsets k
    let spawnX := ship.x + fwdX * 32 + rightX * offX
    let spawnY := ship.y + fwdY * 32 + rightY * offX
    spawnProjectile spawnX spawnY ship.rotation owner (r k)
  ((shot 0).1 ++ (shot 1).1, [(shot 0).2, (shot 1).2])

/-- Oracle for one broadside: three cannon draws per side. -/
structure BroadsideRnd where
  port : Fin 3 → CannonRnd
  star : Fin 3 → CannonRnd

/-- `fireBroadside` (src/App.tsx lines 654-664): recoil opposite the heading,
then a port volley (`-π/2`) and a starboard volley (`+π/2`).  The
`camera.shake = 5` assignment is applied by the calling phase.  Returns the
recoiled ship and the pushed particles and projectiles in push order. -/
def fireBroadside (ship : Ship) (owner : Owner) (r : BroadsideRnd) :
    Ship × List Particle × List Projectile :=
  let s1 := { ship with
    velocity := Vec.mk (ship.velocity.x - Real.cos ship.rotation * 0.5)
                       (ship.velocity.y - Real.sin ship.rotation * 0.5) }
  let port := fireCannons s1 owner (-(π / 2)) r.port
  let star := fireCannons s1 owner (π / 2) r.star
  (s1, port.1 ++ star.1, port.2 ++ star.2)

/-! ## Frame orchestrator: `update` (src/App.tsx lines 278-440)

The per-frame update is modelled as a composition of phase functions in the
source's order: player logic, enemy logic, projectiles, island delivery,
particles.  Each phase takes the oracle draws it may consume. -/

/-- Delta-time normalisation (src/App.tsx line 280):
`Math.min((time - s.lastTime) / 16.67, 2)`. -/
def computeDt (time lastTime : ℝ) : ℝ := min ((time - lastTime) / 16.67) 2

/-- Oracle for the player-logic block: the wake draws and the broadside draws. -/
structure PlayerRnd where
  wake : WakeRnd
  broadside : BroadsideRnd

/-- Player logic (src/App.tsx lines 294-309): physics, world-bounds clamp,
cooldown decrement, fire on input.  Skipped unless the player is active and no
message is displayed. -/
def playerPhase (keys : Keys) (dt : ℝ) (r : PlayerRnd) (st : GameState) : GameState :=
  if st.player.active ∧ st.message = none then
    let p1 := applyShipPhysics st.player keys.w keys.a keys.d dt
    let wake := shipWake p1 r.wake
    let p2 := { p1 with
      x := max 0 (min WORLD_SIZE p1.x)
      y := max 0 (min WORLD_SIZE p1.y) }
    let p3 := if p2.cooldown > 0 then { p2 with cooldown := p2.cooldown - 1 * dt } else p2
    if keys.space ∧ p3.cooldown ≤ 0 then
      let fb := fireBroadside p3 .player r.broadside
      { st with
          player := { fb.1 with cooldown := CANNON_COOLDOWN }
          shake := 5
          particles := st.particles ++ wake ++ fb.2.1
          projectiles := st.projectiles ++ fb.2.2 }
    else
      { st with player := p3, particles := st.particles ++ wake }
  else st

/-- Oracle for one enemy's frame: wake draws and the two chaser shots. -/
structure EnemyRnd where
  wake : WakeRnd
  chasers : Fin 2 → ShotRnd

/-- One enemy's logic (the body of the `forEach` at src/App.tsx lines 312-340),
for an active enemy with no message displayed: AI steering towards the player,
physics, cooldown, bow-chaser fire.  Returns the updated enemy and the pushed
particles and projectiles. -/
def enemyStep (dt : ℝ) (p : Ship) (r : EnemyRnd) (e : Ship) :
    Ship × List Particle × List Projectile :=
  let dx := p.x - e.x
  let dy := p.y - e.y
  let dist := Real.sqrt (dx ^ 2 + dy ^ 2)
  let angleToPlayer := atan2 dy dx
  let angleDiff := wrapAngle (angleToPlayer - e.rotation)
  let turnLeft := angleDiff < -0.1
  let turnRight := angleDiff > 0.1
  let thrust := dist > 250 ∧ |angleDiff| < 1.0
  let e1 := applyShipPhysics e thrust turnLeft turnRight dt
  let wake := shipWake e1 r.wake
  let e2 := if e1.cooldown > 0 then { e1 with cooldown := e1.cooldown - 1 * dt } else e1
  if dist < 500 ∧ e2.cooldown ≤ 0 ∧ |angleDiff| < 0.3 then
    let fc := fireChasers e2 .enemy r.chasers
    ({ e2 with cooldown := ENEMY_COOLDOWN }, wake ++ fc.1, fc.2)
  else
    (e2, wake, [])

/-- The `s.enemies.forEach` loop (src/App.tsx lines 312-340); an enemy is
skipped (`return`) when inactive or a message is displayed. -/
def enemiesGo (dt : ℝ) (msg : Option String) (p : Ship) (r : ℕ → EnemyRnd) :
    ℕ → List Ship → List Ship × List Particle × List Projectile
  | _, [] => ([], [], [])
  | k, e :: es =>
    let this := if e.active = false ∨ msg.isSome then (e, ([], []))
      else enemyStep dt p (r k) e
    let rest := enemiesGo dt msg p r (k + 1) es
    (this.1 :: rest.1, this.2.1 ++ rest.2.1, this.2.2 ++ rest.2.2)

/-- Enemy-logic phase: runs the `forEach` and appends the pushed particles and
projectiles to the stores. -/
def enemyPhase (dt : ℝ) (r : ℕ → EnemyRnd) (st : GameState) : GameState :=
  let go := enemiesGo dt st.message st.player r 0 st.enemies
  { st with
      enemies := go.1
      particles := st.particles ++ go.2.1
      projectiles := st.projectiles ++ go.2.2 }

/-- Oracle for processing one projectile: the smoke-trail draws, the two
explosions it may spawn, and the `Math.random() > 0.6` double-respawn coin. -/
structure ProjRnd where
  trailCoin : ℝ
  trailSize : ℝ
  trailId : ℝ
  hitExp : ExpRnd
  deathExp : ExpRnd
  respawnCoin : ℝ

/-- The smoke-trail particle pushed for a projectile (src/App.tsx
lines 350-360). -/
def trailParticle (r : ProjRnd) (px py : ℝ) : Particle :=
  { id := r.trailId, x := px, y := py, radius := 2, rotation := 0, active := true
    velocity := Vec.mk 0 0
    life := 0.4, maxLife := 0.4
    color := "rgba(220,220,220,0.2)"
    size := randomRange r.trailSize 2 3, ptype := .smoke }

/-- The inner `for (const enemy of s.enemies)` loop of a player-owned
projectile (src/App.tsx lines 386-402): damage the first active colliding
enemy.  Returns the updated enemy list together with, for a hit, the struck
enemy's position and whether the hit was fatal. -/
def strikeFirst (px py pradius : ℝ) : List Ship → List Ship × Option (ℝ × ℝ × Bool)
  | [] => ([], none)
  | e :: es =>
    if e.active = true ∧ checkCollision px py pradius e.x e.y e.radius then
      let e1 := { e with health := e.health - 15 }
      if e1.health ≤ 0 then
        ({ e1 with active := false } :: es, some (e1.x, e1.y, true))
      else
        (e1 :: es, some (e1.x, e1.y, false))
    else
      let rest := strikeFirst px py pradius es
      (e :: rest.1, rest.2)

/-- Processing of the projectile at index `i` (the body of the loop at
src/App.tsx lines 343-408, after the `message` check): integrate position,
maybe push a smoke trail, remove when out of bounds, collide with the player
(enemy shots, 8 damage) or with the first active enemy (player shots,
15 damage). -/
def processProj (dt : ℝ) (r : ProjRnd) (st : GameState) (i : ℕ) : GameState :=
  match st.projectiles.get? i with
  | none => st
  | some proj0 =>
    let proj := { proj0 with
      x := proj0.x + proj0.velocity.x * dt
      y := proj0.y + proj0.velocity.y * dt }
    let st1 := { st with projectiles := st.projectiles.set i proj }
    let st2 := if r.trailCoin > 0.7 then
        { st1 with particles := st1.particles ++ [trailParticle r proj.x proj.y] }
      else st1
    if proj.x < (0:ℝ) ∨ proj.x > WORLD_SIZE ∨ proj.y < (0:ℝ) ∨ proj.y > WORLD_SIZE then
      { st2 with projectiles := st2.projectiles.eraseIdx i }
    else if proj.owner = .enemy ∧ st2.player.active = true ∧
        checkCollision proj.x proj.y proj.radius st2.player.x st2.player.y st2.player.radius then
      let p1 := { st2.player with health := st2.player.health - 8 }
      let st3 := { st2 with
        player := p1
        shake := 8
        particles := st2.particles ++ createExplosion r.hitExp p1.x p1.y false 15
        projectiles := st2.projectiles.eraseIdx i }
      if p1.health ≤ (0:ℝ) then
        { st3 with
            player := { p1 with active := false }
            particles := st3.particles ++ createExplosion r.deathExp p1.x p1.y true 60 }
      else st3
    else if proj.owner = .player then
      let strike := strikeFirst proj.x proj.y proj.radius st2.enemies
      match strike.2 with
      | none => { st2 with enemies := strike.1 }
      | some (ex, ey, fatal) =>
        let st3 := { st2 with
          enemies := strike.1
          particles := st2.particles ++ createExplosion r.hitExp ex ey false 8
          projectiles := st2.projectiles.eraseIdx i }
        if fatal then
          { st3 with
              particles := st3.particles ++ createExplosion r.deathExp ex ey true 40
              shake := 5
              score := st3.score + 150
              pendingRespawns := st3.pendingRespawns ++
                (if r.respawnCoin > 0.6 then [2000, 5000] else [2000]) }
        else st3
    else st2

/-- The projectile loop (src/App.tsx lines 343-408):
`for (let i = s.projectiles.length - 1; i >= 0; i--)`, with
`if (message) break` at the top of each iteration.  `projLoop msg dt r n st`
runs the iterations for indices `n - 1` down to `0`. -/
def projLoop (msg : Option String) (dt : ℝ) (r : ℕ → ProjRnd) :
    ℕ → GameState → GameState
  | 0, st => st
  | n + 1, st =>
    if msg.isSome then st
    else projLoop msg dt r n (processProj dt (r n) st n)

/-- Projectile phase: run the loop from the last index of the store. -/
def projectilesPhase (msg : Option String) (dt : ℝ) (r : ℕ → ProjRnd)
    (st : GameState) : GameState :=
  projLoop msg dt r st.projectiles.length st

/-! ## Island delivery (src/App.tsx lines 410-419, 990-998) -/

/-- The synchronous prefix of `deliverPresent` (src/App.tsx lines 990-994):
mark the island delivered, award 500 bounty, enter the loading state and start
the asynchronous `generatePirateEvent` fetch (recorded in `pendingFetches`).
Everything after the `await` is `fetchContinuation` below. -/
def deliverPresent (st : GameState) (i : ℕ) : GameState :=
  match st.islands.get? i with
  | none => st
  | some isl =>
    { st with
        islands := st.islands.set i { isl with delivered := true }
        score := st.score + 500
        loadingMessage := true
        pendingFetches := st.pendingFetches + 1 }

/-- The delivery loop body over island indices (src/App.tsx lines 412-418):
skip delivered islands, otherwise test circle overlap (no forgiveness margin)
and deliver. -/
def deliveryGo (st : GameState) : ℕ → GameState
  | 0 => st
  | n + 1 =>
    let st1 := deliveryGo st n
    match st1.islands.get? n with
    | none => st1
    | some isl =>
      if isl.delivered then st1
      else if Real.sqrt ((st1.player.x - isl.x) ^ 2 + (st1.player.y - isl.y) ^ 2)
          < isl.radius + st1.player.radius then
        deliverPresent st1 n
      else st1

/-- Island delivery phase (src/App.tsx lines 410-419), gated on the player
being active and no message being displayed or loading. -/
def deliveryPhase (st : GameState) : GameState :=
  if st.player.active = true ∧ st.message = none ∧ st.loadingMessage = false then
    deliveryGo st st.islands.length
  else st

/-! ## Particle system (src/App.tsx lines 421-437) -/

/-- Oracle for processing one particle: the two glint-teleport coins and the
two fresh glint coordinates. -/
structure GlintRnd where
  cx : ℝ
  cy : ℝ
  nx : ℝ
  ny : ℝ

/-- Processing of the particle at index `i` (the body of the loop at
src/App.tsx lines 422-437).  Glints drift sinusoidally and occasionally
teleport and are never removed; every other kind is integrated, loses
`0.02 * dt` life, shrinks by `0.95` and is removed once `life ≤ 0`. -/
def processPart (dt time : ℝ) (r : GlintRnd) (parts : List Particle) (i : ℕ) :
    List Particle :=
  match parts.get? i with
  | none => parts
  | some part =>
    if part.ptype = .glint then
      let p1 := { part with x := part.x + Real.sin (time + part.id) * 0.2 }
      let p2 := if r.cx > 0.99 then { p1 with x := randomRange r.nx 0 WORLD_SIZE } else p1
      let p3 := if r.cy > 0.99 then { p2 with y := randomRange r.ny 0 WORLD_SIZE } else p2
      parts.set i p3
    else
      let p1 := { part with
        x := part.x + part.velocity.x * dt
        y := part.y + part.velocity.y * dt
        life := part.life - 0.02 * dt
        size := part.size * 0.95 }
      if p1.life ≤ (0:ℝ) then parts.eraseIdx i
      else parts.set i p1

/-- The particle loop:
`for (let i = s.particles.length - 1; i >= 0; i--)` (no pause-gate check). -/
def partLoop (dt time : ℝ) (r : ℕ → GlintRnd) : ℕ → List Particle → List Particle
  | 0, parts => parts
  | n + 1, parts => partLoop dt time r n (processPart dt time (r n) parts n)

/-- Particle phase: run the loop from the last index of the store. -/
def particlesPhase (dt time : ℝ) (r : ℕ → GlintRnd) (parts : List Particle) :
    List Particle :=
  partLoop dt time r parts.length parts

/-! ## The per-frame `update` (src/App.tsx lines 278-440) -/

/-- All `Math.random()` draws one frame may consume. -/
structure FrameRnd where
  player : PlayerRnd
  enemy : ℕ → EnemyRnd
  proj : ℕ → ProjRnd
  glint : ℕ → GlintRnd

/-- Game-over detection (src/App.tsx lines 286-288). -/
def gameOverCheck (st : GameState) : GameState :=
  if st.player.active = true then st else { st with gameOver := true }

/-- Screen-shake decay (src/App.tsx lines 290-292). -/
def shakeDecay (st : GameState) : GameState :=
  let st1 := if st.shake > 0 then { st with shake := st.shake * 0.9 } else st
  if st1.shake < 0.5 then { st1 with shake := 0 } else st1

/-- One frame of the game loop (src/App.tsx lines 278-440): delta-time
normalisation, game-over detection, shake decay, player logic, enemy logic,
projectiles, island delivery, particles, frame counter. -/
def update (t : ℝ) (keys : Keys) (r : FrameRnd) (st : GameState) : GameState :=
  let dt := computeDt t st.lastTime
  let st0 := { st with lastTime := t, time := st.time + 0.01 * dt }
  let st1 := shakeDecay (gameOverCheck st0)
  let st2 := playerPhase keys dt r.player st1
  let st3 := enemyPhase dt r.enemy st2
  let st4 := projectilesPhase st3.message dt r.proj st3
  let st5 := deliveryPhase st4
  let st6 := { st5 with particles := particlesPhase dt st5.time r.glint st5.particles }
  { st6 with frameCount := st6.frameCount + 1 }

/-! ## Spawn / world manager (src/App.tsx lines 71-158) -/

/-- The rejection sampling `do { ... } while (dist < minDist)`: the first
candidate position at distance at least `minDist` from `(cx, cy)`.  A stream
with no accepted candidate (on which the source loop would not terminate) is
modelled as `none`. -/
def firstFarPos (cx cy minDist : ℝ) : List (ℝ × ℝ) → Option (ℝ × ℝ)
  | [] => none
  | c :: cs =>
    if Real.sqrt ((c.1 - cx) ^ 2 + (c.2 - cy) ^ 2) < minDist then
      firstFarPos cx cy minDist cs
    else some c

/-- Oracle draws for one `spawnEnemy` call: the candidate `Math.random()`
pairs of the placement loop, plus the rotation, id and wobble draws. -/
structure SpawnRnd where
  cands : List (ℝ × ℝ)
  rot : ℝ
  eid : ℝ
  wobble : ℝ

/-- `spawnEnemy` (src/App.tsx lines 131-158): reject when the enemy store
already holds more than 8 records, otherwise append a pirate at the first
sampled position at least 1000 from the player, with full health and zero
velocity. -/
def spawnEnemy (r : SpawnRnd) (st : GameState) : GameState :=
  if st.enemies.length > 8 then st
  else
    match firstFarPos st.player.x st.player.y 1000
        (r.cands.map fun c => (c.1 * WORLD_SIZE, c.2 * WORLD_SIZE)) with
    | none => st
    | some pos =>
      { st with enemies := st.enemies ++
          [{ id := r.eid
             x := pos.1, y := pos.2
             radius := 30
             rotation := r.rot * π * 2
             active := true
             velocity := Vec.mk 0 0
             angularVelocity := 0
             speed := 0
             health := 40
             maxHealth := 40
             cooldown := 0
             stype := .pirate
             wobbleOffset := r.wobble * 100 }] }

/-- Oracle draws for one island of `initGame`: the candidate `(x, y)` pairs of
the placement loop and the radius / rotation / hue / variant draws. -/
structure IslandRnd where
  cands : List (ℝ × ℝ)
  rad : ℝ
  rot : ℝ
  hue : ℝ
  var : ℝ

/-- One island of the world-init loop (src/App.tsx lines 90-109): position
sampled from `randomRange(200, WORLD_SIZE - 200)` on each axis, rejected while
closer than 500 to the world centre.  An exhausted candidate stream (source
would loop forever) produces no island. -/
def mkIsland (i : ℕ) (r : IslandRnd) : Option Island :=
  (firstFarPos (WORLD_SIZE / 2) (WORLD_SIZE / 2) 500
      (r.cands.map fun c =>
        (randomRange c.1 200 (WORLD_SIZE - 200), randomRange c.2 200 (WORLD_SIZE - 200)))).map
    fun pos =>
      { id := (i : ℝ)
        x := pos.1, y := pos.2
        radius := randomRange r.rad 70 100
        rotation := randomRange r.rot 0 (π * 2)
        active := true
        name := "Isle " ++ toString (i + 1)
        delivered := false
        colorHue := randomRange r.hue 90 140
        variant := ⌊r.var * 3⌋.toNat }

/-- Oracle draws for one ambient glint of `initGame`. -/
structure GlintInitRnd where
  gid : ℝ
  gx : ℝ
  gy : ℝ
  gsize : ℝ

/-- One ambient glint particle (src/App.tsx lines 115-126). -/
def mkGlint (r : GlintInitRnd) : Particle :=
  { id := r.gid
    x := r.gx * WORLD_SIZE
    y := r.gy * WORLD_SIZE
    radius := 0, rotation := 0, active := true
    velocity := Vec.mk 0 0
    life := 1, maxLife := 1
    color := "white"
    size := r.gsize * 2 + 1
    ptype := .glint }

/-- Oracle draws for one `initGame` call. -/
structure InitRnd where
  islands : ℕ → IslandRnd
  spawns : ℕ → SpawnRnd
  glints : ℕ → GlintInitRnd
  now : ℝ

/-- The welcome message set by `initGame` (src/App.tsx line 87). -/
def welcomeMessage : String :=
  "Welcome Captain! Use A/D to steer and W to hoist sails. SPACE fires Broadsides (Left & Right). Deliver presents to the islands!"

/-- `initGame` (src/App.tsx lines 71-129): reset the player, clear the entity
stores, reset score / game-over / message, regenerate the islands, spawn 3
enemies and seed 80 ambient glints.  Note that it does nothing about a still
pending narrative fetch (`pendingFetches` and `loadingMessage` are untouched;
the source has no cancellation or session-token guard). -/
def initGame (r : InitRnd) (st : GameState) : GameState :=
  let base := { st with
    player := { st.player with
      x := WORLD_SIZE / 2
      y := WORLD_SIZE / 2
      velocity := Vec.mk 0 0
      angularVelocity := 0
      health := 100
      active := true
      rotation := -(π / 2) }
    projectiles := []
    particles := []
    enemies := []
    islands := []
    shake := 0
    score := 0
    gameOver := false
    message := some welcomeMessage }
  let withIslands := { base with
    islands := (List.range 12).filterMap fun i => mkIsland i (r.islands i) }
  let withEnemies :=
    spawnEnemy (r.spawns 2) (spawnEnemy (r.spawns 1) (spawnEnemy (r.spawns 0) withIslands))
  { withEnemies with
      particles := withEnemies.particles ++ (List.range 80).map fun i => mkGlint (r.glints i)
      lastTime := r.now }

/-! ## The asynchronous narrative fetch (src/App.tsx lines 990-998, src/services/gemini.ts)

`deliverPresent` `await`s `generatePirateEvent`; the code after the `await`
runs when the promise resolves, however much later, with no check that the
session that started the fetch is still the current one. -/

/-- The continuation of `deliverPresent` after the `await`
(src/App.tsx lines 995-997): `setLoadingMessage(false); setMessage(text)` —
applied unconditionally to whatever the current state is when the promise
resolves. -/
def fetchContinuation (text : String) (st : GameState) : GameState :=
  { st with loadingMessage := false, message := some text }

/-- Session-level events: a delivery's synchronous part, a session reset
(`initGame`, from the TRY AGAIN button or initial start), and the resolution
of a pending narrative fetch. -/
inductive SessionEvent where
  | deliver (islandIdx : ℕ)
  | reset (r : InitRnd)
  | fetchDone (text : String)

/-- Session-level small-step semantics tying the three events to their
effects in the source. -/
def stepSession : SessionEvent → GameState → GameState
  | .deliver i, st => deliverPresent st i
  | .reset r, st => initGame r st
  | .fetchDone text, st =>
    if 0 < st.pendingFetches then
      { fetchContinuation text st with pendingFetches := st.pendingFetches - 1 }
    else st

/-! ## The narrative service: `generatePirateEvent` (src/services/gemini.ts lines 9-29) -/

/-- Outcome of the external `ai.models.generateContent` call: either a
response whose `text` may be absent or empty, or a thrown error. -/
inductive FetchOutcome where
  | success (text : Option String)
  | failure
deriving DecidableEq

/-- `generatePirateEvent` modelled on its outcome: `response.text || fallback`
substitutes the fixed fallback for an absent or empty text, and the `catch`
block returns the fixed error string.  Being a total function, it never
propagates the failure. -/
def generatePirateEvent : FetchOutcome → String
  | .success (some t) => if t = "" then "Arrr! The winds carry no words today." else t
  | .success none => "Arrr! The winds carry no words today."
  | .failure => "The sea is silent... (API Error)"

/-! ## Damage-field erasure (for claim C10) -/

/-- A projectile with its damage field erased.  Two states that agree after
erasing every damage field behave identically, because the update loop never
reads `damage`. -/
def dropDamage (p : Projectile) : Projectile := { p with damage := 0 }

/-- Two world states that agree everywhere except possibly in the stored
damage fields of their projectiles. -/
def eqUpToDamage (a b : GameState) : Prop :=
  a.player = b.player ∧ a.enemies = b.enemies ∧ a.particles = b.particles ∧
  a.islands = b.islands ∧
  a.projectiles.map dropDamage = b.projectiles.map dropDamage ∧
  a.shake = b.shake ∧ a.lastTime = b.lastTime ∧ a.time = b.time ∧
  a.frameCount = b.frameCount ∧ a.score = b.score ∧ a.gameOver = b.gameOver ∧
  a.message = b.message ∧ a.loadingMessage = b.loadingMessage ∧
  a.pendingFetches = b.pendingFetches ∧ a.pendingRespawns = b.pendingRespawns

/-! ## Spec-side description of a broadside shot (for claim C4)

Modelled from the spec (section 4.2), to be compared with the code's
`fireBroadside` / `fireCannons`. -/

/-- Modelled from the spec: the `±0.1 rad` random spread of one cannon,
`(Math.random() - 0.5) * 0.2` applied to the draw `d ∈ [0, 1)`. -/
def specCannonSpread (d : ℝ) : ℝ := (d - 0.5) * 0.2

/-- Modelled from the spec: one broadside cannon shot from the firing pose
`ship`, described by the firing side (`side = -1` or `+1`), the longitudinal
hull offset (`{-15, -5, 5}`), the angular spread and the projectile id —
spawned at lateral offset 16 towards the firing side, fired at
`heading + side * 90°` plus the spread, with speed `CANNON_SPEED` and
damage 10. -/
def specBroadsideShot (ship : Ship) (side fwdOffset spread pid : ℝ) : Projectile :=
  { id := pid
    x := ship.x + Real.cos ship.rotation * (-fwdOffset) +
         (-Real.sin ship.rotation) * (side * 16)
    y := ship.y + Real.sin ship.rotation * (-fwdOffset) +
         Real.cos ship.rotation * (side * 16)
    radius := 3, rotation := 0, active := true
    velocity := Vec.mk
      (Real.cos (ship.rotation + side * (π / 2) + spread) * CANNON_SPEED)
      (Real.sin (ship.rotation + side * (π / 2) + spread) * CANNON_SPEED)
    owner := .player
    damage := 10 }

/-! ## Concrete states and oracles

Fixed all-zero oracle draws and small concrete world states, used by the
witnesses and counterexamples below. -/

def shot0 : ShotRnd := ⟨0, 0, 0, 0, 0⟩

def cannon0 : CannonRnd := ⟨0, shot0⟩

def wake0 : WakeRnd := ⟨0, 0, 0, 0, 0⟩

def part0 : PartRnd := ⟨0, 0, 0, 0, 0⟩

def exp0 : ExpRnd := ⟨fun _ => part0, fun _ => part0⟩

def broadside0 : BroadsideRnd := ⟨fun _ => cannon0, fun _ => cannon0⟩

def playerRnd0 : PlayerRnd := ⟨wake0, broadside0⟩

def enemyRnd0 : EnemyRnd := ⟨wake0, fun _ => shot0⟩

def projRnd0 : ProjRnd := ⟨0, 0, 0, exp0, exp0, 0⟩

def glintRnd0 : GlintRnd := ⟨0, 0, 0, 0⟩

def frameRnd0 : FrameRnd :=
  ⟨playerRnd0, fun _ => enemyRnd0, fun _ => projRnd0, fun _ => glintRnd0⟩

def keys0 : Keys := ⟨false, false, false, false, false⟩

/-- Only the fire key held. -/
def keysSpace : Keys := ⟨false, false, false, false, true⟩

/-- A player ship at the world centre at rest, full health, cooldown elapsed. -/
def basePlayer : Ship :=
  { id := 0, x := 2000, y := 2000, radius := 30, rotation := 0, active := true
    velocity := Vec.mk 0 0, angularVelocity := 0, speed := 0
    health := 100, maxHealth := 100, cooldown := 0
    stype := .player, wobbleOffset := 0 }

/-- An empty running world (no enemies, islands, projectiles or particles). -/
def baseState : GameState :=
  { player := basePlayer
    projectiles := [], particles := [], enemies := [], islands := []
    shake := 0, lastTime := 0, time := 0, frameCount := 0, score := 0
    gameOver := false, message := none, loadingMessage := false
    pendingFetches := 0, pendingRespawns := [] }

/-- C1 counterexample input: the player at health 5 with an enemy cannonball
10 units away (well inside the collision radius `3 + 30 - 5 = 28`). -/
def c1State : GameState :=
  { baseState with
      player := { basePlayer with health := 5 }
      projectiles := [{ id := 1, x := 2000, y := 2010, radius := 3, rotation := 0
                        active := true, velocity := Vec.mk 0 0
                        owner := .enemy, damage := 10 }] }

/-- C2 counterexample input: a narrative fetch is pending (`loadingMessage`)
but no message text has arrived yet, and one player cannonball is in flight. -/
def c2State : GameState :=
  { baseState with
      loadingMessage := true
      projectiles := [{ id := 1, x := 2000, y := 2000, radius := 3, rotation := 0
                        active := true, velocity := Vec.mk 9 0
                        owner := .player, damage := 10 }] }

/-- A state with a loaded narrative message displayed. -/
def cMsgState : GameState := { baseState with message := some "Ahoy" }

/-- A live smoke particle for the C6 counterexample. -/
def c6Part : Particle :=
  { id := 2, x := 100, y := 100, radius := 0, rotation := 0
    active := true, velocity := Vec.mk 3 0
    life := 1, maxLife := 1, color := "rgba(100,100,100,0.5)"
    size := 2, ptype := .smoke }

/-- C6 counterexample input: a message is displayed (pause gate active) and
one smoke particle is alive. -/
def c6State : GameState :=
  { baseState with
      message := some "Ahoy"
      particles := [c6Part] }

/-- A sunk pirate record: dead enemies stay in the store with
`active = false` and are never removed. -/
def deadEnemy : Ship :=
  { id := 7, x := 100, y := 100, radius := 30, rotation := 0, active := false
    velocity := Vec.mk 0 0, angularVelocity := 0, speed := 0
    health := -5, maxHealth := 40, cooldown := 0
    stype := .pirate, wobbleOffset := 0 }

/-- C5 counterexample input: nine dead enemy records, none active. -/
def c5State : GameState := { baseState with enemies := List.replicate 9 deadEnemy }

/-- Spawn oracle whose single candidate draw `(0.875, 0.5)` scales to the
position `(3500, 2000)`, which is 1500 units from the player at
`(2000, 2000)`. -/
def c5Rnd : SpawnRnd := ⟨[(0.875, 0.5)], 0, 0, 0⟩

/-- The C7 scenario (spec section 8): starting from rest at the world centre
with heading 0, apply the motion model with `thrustOn = true`, no turning and
`dt = 1`, `n` times. -/
def c7Iter (n : ℕ) : Ship :=
  (fun s => applyShipPhysics s true false false 1)^[n] basePlayer

/-- The forward speed in the C7 scenario (the heading stays 0, so the forward
component of the velocity is its x component). -/
def c7ForwardSpeed (n : ℕ) : ℝ := (c7Iter n).velocity.x

/-- C9 witness input: a frame whose timestamp precedes `lastTime`, with a
recharging cannon. -/
def c9State : GameState :=
  { baseState with
      lastTime := 16.67
      player := { basePlayer with cooldown := 10 } }

/-- An undelivered island for the C3 trace. -/
def c3Island : Island :=
  { id := 0, x := 3000, y := 3000, radius := 80, rotation := 0, active := true
    name := "Isle 1", delivered := false, colorHue := 100, variant := 0 }

/-- C3 failing input: a session with one undelivered island. -/
def c3State : GameState := { baseState with islands := [c3Island] }

/-- All-empty `initGame` oracle (no island or enemy placement succeeds; only
the session-reset bookkeeping matters for C3). -/
def initRnd0 : InitRnd :=
  { islands := fun _ => ⟨[], 0, 0, 0, 0⟩
    spawns := fun _ => ⟨[], 0, 0, 0⟩
    glints := fun _ => ⟨0, 0, 0, 0⟩
    now := 0 }

/-- An active pirate sitting exactly at `(2000, 2010)`, struck by the C10
witness shot. -/
def c10Enemy : Ship :=
  { id := 9, x := 2000, y := 2010, radius := 30, rotation := 0, active := true
    velocity := Vec.mk 0 0, angularVelocity := 0, speed := 0
    health := 40, maxHealth := 40, cooldown := 0
    stype := .pirate, wobbleOffset := 0 }

/-- The C1 counterexample state with the cannonball's damage field rewritten
from 10 to 999: identical to `c1State` up to damage. -/
def c10State : GameState :=
  { baseState with
      player := { basePlayer with health := 5 }
      projectiles := [{ id := 1, x := 2000, y := 2010, radius := 3, rotation := 0
                        active := true, velocity := Vec.mk 0 0
                        owner := .enemy, damage := 999 }] }

/-! # Lemmas

Field-preservation lemmas for the phases, used to localise each claim to the
phase it is about. -/

/-! ## Motion model projections -/

@[simp] lemma applyShipPhysics_health (s : Ship) (a b c : Bool) (dt : ℝ) :
    (applyShipPhysics s a b c dt).health = s.health := rfl

@[simp] lemma applyShipPhysics_maxHealth (s : Ship) (a b c : Bool) (dt : ℝ) :
    (applyShipPhysics s a b c dt).maxHealth = s.maxHealth := rfl

@[simp] lemma applyShipPhysics_active (s : Ship) (a b c : Bool) (dt : ℝ) :
    (applyShipPhysics s a b c dt).active = s.active := rfl

@[simp] lemma applyShipPhysics_cooldown (s : Ship) (a b c : Bool) (dt : ℝ) :
    (applyShipPhysics s a b c dt).cooldown = s.cooldown := rfl

@[simp] lemma applyShipPhysics_radius (s : Ship) (a b c : Bool) (dt : ℝ) :
    (applyShipPhysics s a b c dt).radius = s.radius := rfl

@[simp] lemma fireBroadside_ship_health (s : Ship) (o : Owner) (r : BroadsideRnd) :
    (fireBroadside s o r).1.health = s.health := rfl

@[simp] lemma fireBroadside_ship_maxHealth (s : Ship) (o : Owner) (r : BroadsideRnd) :
    (fireBroadside s o r).1.maxHealth = s.maxHealth := rfl

@[simp] lemma fireBroadside_ship_active (s : Ship) (o : Owner) (r : BroadsideRnd) :
    (fireBroadside s o r).1.active = s.active := rfl

@[simp] lemma fireBroadside_ship_rotation (s : Ship) (o : Owner) (r : BroadsideRnd) :
    (fireBroadside s o r).1.rotation = s.rotation := rfl

@[simp] lemma fireBroadside_ship_x (s : Ship) (o : Owner) (r : BroadsideRnd) :
    (fireBroadside s o r).1.x = s.x := rfl

@[simp] lemma fireBroadside_ship_y (s : Ship) (o : Owner) (r : BroadsideRnd) :
    (fireBroadside s o r).1.y = s.y := rfl

@[simp] lemma fireBroadside_ship_cooldown (s : Ship) (o : Owner) (r : BroadsideRnd) :
    (fireBroadside s o r).1.cooldown = s.cooldown := rfl

/-! ## Enemy-step projections -/

lemma enemyStep_health (dt : ℝ) (p : Ship) (r : EnemyRnd) (e : Ship) :
    (enemyStep dt p r e).1.health = e.health := by
  simp only [enemyStep]
  split_ifs <;> simp

lemma enemyStep_maxHealth (dt : ℝ) (p : Ship) (r : EnemyRnd) (e : Ship) :
    (enemyStep dt p r e).1.maxHealth = e.maxHealth := by
  simp only [enemyStep]
  split_ifs <;> simp

lemma enemyStep_active (dt : ℝ) (p : Ship) (r : EnemyRnd) (e : Ship) :
    (enemyStep dt p r e).1.active = e.active := by
  simp only [enemyStep]
  split_ifs <;> simp

/-- The health / maxHealth / active view of a ship, preserved by everything
except projectile damage. -/
def healthView (e : Ship) : ℝ × ℝ × Bool := (e.health, e.maxHealth, e.active)

lemma enemiesGo_healthView (dt : ℝ) (msg : Option String) (p : Ship)
    (r : ℕ → EnemyRnd) (k : ℕ) (es : List Ship) :
    (enemiesGo dt msg p r k es).1.map healthView = es.map healthView := by
  induction es generalizing k with
  | nil => rfl
  | cons e es ih =>
    simp only [enemiesGo, List.map_cons, ih]
    split_ifs with h
    · rfl
    · simp [healthView, enemyStep_health, enemyStep_maxHealth, enemyStep_active]

/-! ## Header-step projections -/

lemma gameOverCheck_player (st : GameState) : (gameOverCheck st).player = st.player := by
  simp only [gameOverCheck]; split_ifs <;> rfl

lemma gameOverCheck_projectiles (st : GameState) :
    (gameOverCheck st).projectiles = st.projectiles := by
  simp only [gameOverCheck]; split_ifs <;> rfl

lemma gameOverCheck_particles (st : GameState) :
    (gameOverCheck st).particles = st.particles := by
  simp only [gameOverCheck]; split_ifs <;> rfl

lemma gameOverCheck_enemies (st : GameState) : (gameOverCheck st).enemies = st.enemies := by
  simp only [gameOverCheck]; split_ifs <;> rfl

lemma gameOverCheck_islands (st : GameState) : (gameOverCheck st).islands = st.islands := by
  simp only [gameOverCheck]; split_ifs <;> rfl

lemma gameOverCheck_message (st : GameState) : (gameOverCheck st).message = st.message := by
  simp only [gameOverCheck]; split_ifs <;> rfl

lemma gameOverCheck_loadingMessage (st : GameState) :
    (gameOverCheck st).loadingMessage = st.loadingMessage := by
  simp only [gameOverCheck]; split_ifs <;> rfl

lemma shakeDecay_player (st : GameState) : (shakeDecay st).player = st.player := by
  simp only [shakeDecay]; split_ifs <;> rfl

lemma shakeDecay_projectiles (st : GameState) :
    (shakeDecay st).projectiles = st.projectiles := by
  simp only [shakeDecay]; split_ifs <;> rfl

lemma shakeDecay_particles (st : GameState) : (shakeDecay st).particles = st.particles := by
  simp only [shakeDecay]; split_ifs <;> rfl

lemma shakeDecay_enemies (st : GameState) : (shakeDecay st).enemies = st.enemies := by
  simp only [shakeDecay]; split_ifs <;> rfl

lemma shakeDecay_islands (st : GameState) : (shakeDecay st).islands = st.islands := by
  simp only [shakeDecay]; split_ifs <;> rfl

lemma shakeDecay_message (st : GameState) : (shakeDecay st).message = st.message := by
  simp only [shakeDecay]; split_ifs <;> rfl

lemma shakeDecay_loadingMessage (st : GameState) :
    (shakeDecay st).loadingMessage = st.loadingMessage := by
  simp only [shakeDecay]; split_ifs <;> rfl

lemma gameOverCheck_time (st : GameState) : (gameOverCheck st).time = st.time := by
  simp only [gameOverCheck]; split_ifs <;> rfl

lemma shakeDecay_time (st : GameState) : (shakeDecay st).time = st.time := by
  simp only [shakeDecay]; split_ifs <;> rfl

/-! ## Player-phase projections -/

lemma playerPhase_enemies (keys : Keys) (dt : ℝ) (r : PlayerRnd) (st : GameState) :
    (playerPhase keys dt r st).enemies = st.enemies := by
  simp only [playerPhase]; split_ifs <;> rfl

lemma playerPhase_islands (keys : Keys) (dt : ℝ) (r : PlayerRnd) (st : GameState) :
    (playerPhase keys dt r st).islands = st.islands := by
  simp only [playerPhase]; split_ifs <;> rfl

lemma playerPhase_message (keys : Keys) (dt : ℝ) (r : PlayerRnd) (st : GameState) :
    (playerPhase keys dt r st).message = st.message := by
  simp only [playerPhase]; split_ifs <;> rfl

lemma playerPhase_loadingMessage (keys : Keys) (dt : ℝ) (r : PlayerRnd) (st : GameState) :
    (playerPhase keys dt r st).loadingMessage = st.loadingMessage := by
  simp only [playerPhase]; split_ifs <;> rfl

lemma playerPhase_player_health (keys : Keys) (dt : ℝ) (r : PlayerRnd) (st : GameState) :
    (playerPhase keys dt r st).player.health = st.player.health := by
  simp only [playerPhase]; split_ifs <;> simp

lemma playerPhase_player_maxHealth (keys : Keys) (dt : ℝ) (r : PlayerRnd) (st : GameState) :
    (playerPhase keys dt r st).player.maxHealth = st.player.maxHealth := by
  simp only [playerPhase]; split_ifs <;> simp

lemma playerPhase_player_active (keys : Keys) (dt : ℝ) (r : PlayerRnd) (st : GameState) :
    (playerPhase keys dt r st).player.active = st.player.active := by
  simp only [playerPhase]; split_ifs <;> simp

/-- When a message is displayed the player-logic block is skipped entirely. -/
lemma playerPhase_msg (keys : Keys) (dt : ℝ) (r : PlayerRnd) (st : GameState)
    (m : String) (h : st.message = some m) :
    playerPhase keys dt r st = st := by
  simp only [playerPhase]
  rw [if_neg]
  simp [h]

/-- When the player block runs, the post-frame rotation is exactly the one the
motion model computed with the frame's `dt` — nothing downstream touches it. -/
lemma playerPhase_rotation (keys : Keys) (dt : ℝ) (r : PlayerRnd) (st : GameState)
    (hact : st.player.active = true) (hmsg : st.message = none) :
    (playerPhase keys dt r st).player.rotation =
      (applyShipPhysics st.player keys.w keys.a keys.d dt).rotation := by
  unfold playerPhase
  rw [if_pos ⟨hact, hmsg⟩]
  simp only []
  split_ifs <;> simp

/-- When the player block runs with the fire key up and a positive cooldown,
the cooldown is decremented by exactly `1 * dt` — with no check that `dt` is
nonnegative. -/
lemma playerPhase_cooldown_nofire (keys : Keys) (dt : ℝ) (r : PlayerRnd)
    (st : GameState) (hact : st.player.active = true) (hmsg : st.message = none)
    (hspace : keys.space = false) (hcd : st.player.cooldown > 0) :
    (playerPhase keys dt r st).player.cooldown = st.player.cooldown - 1 * dt := by
  unfold playerPhase
  rw [if_pos ⟨hact, hmsg⟩]
  simp only []
  split_ifs with h1 h2
  · rw [hspace] at h2
    simp at h2
  · simp
  · simp at h1
    exact absurd hcd (by simpa using h1)
  · simp at h1
    exact absurd hcd (by simpa using h1)

/-! ## Enemy-phase projections -/

lemma enemyPhase_player (dt : ℝ) (r : ℕ → EnemyRnd) (st : GameState) :
    (enemyPhase dt r st).player = st.player := rfl

lemma enemyPhase_islands (dt : ℝ) (r : ℕ → EnemyRnd) (st : GameState) :
    (enemyPhase dt r st).islands = st.islands := rfl

lemma enemyPhase_message (dt : ℝ) (r : ℕ → EnemyRnd) (st : GameState) :
    (enemyPhase dt r st).message = st.message := rfl

lemma enemyPhase_loadingMessage (dt : ℝ) (r : ℕ → EnemyRnd) (st : GameState) :
    (enemyPhase dt r st).loadingMessage = st.loadingMessage := rfl

lemma enemyPhase_healthView (dt : ℝ) (r : ℕ → EnemyRnd) (st : GameState) :
    (enemyPhase dt r st).enemies.map healthView = st.enemies.map healthView :=
  enemiesGo_healthView dt st.message st.player r 0 st.enemies

/-- When a message is displayed every enemy's `forEach` body hits the early
`return`, so nothing changes and nothing is pushed. -/
lemma enemiesGo_msg (dt : ℝ) (m : String) (p : Ship) (r : ℕ → EnemyRnd)
    (k : ℕ) (es : List Ship) :
    enemiesGo dt (some m) p r k es = (es, [], []) := by
  induction es generalizing k with
  | nil => rfl
  | cons e es ih => simp [enemiesGo, ih]

lemma enemyPhase_msg (dt : ℝ) (r : ℕ → EnemyRnd) (st : GameState) (m : String)
    (h : st.message = some m) :
    (enemyPhase dt r st).enemies = st.enemies ∧
    (enemyPhase dt r st).particles = st.particles ∧
    (enemyPhase dt r st).projectiles = st.projectiles := by
  simp [enemyPhase, h, enemiesGo_msg]

lemma enemyPhase_time (dt : ℝ) (r : ℕ → EnemyRnd) (st : GameState) :
    (enemyPhase dt r st).time = st.time := rfl

/-- With a message displayed (hence not `none`), the delivery gate is closed. -/
lemma deliveryPhase_msg (st : GameState) (m : String) (h : st.message = some m) :
    deliveryPhase st = st := by
  unfold deliveryPhase
  have hneg : ¬ (st.player.active = true ∧ st.message = none ∧
      st.loadingMessage = false) := by simp [h]
  rw [if_neg hneg]

/-! ## Projectile-loop projections -/

/-- When a message is displayed the projectile loop breaks before doing
anything. -/
lemma projLoop_msg (m : String) (dt : ℝ) (r : ℕ → ProjRnd) (n : ℕ) (st : GameState) :
    projLoop (some m) dt r n st = st := by
  cases n <;> simp [projLoop]

lemma projectilesPhase_msg (m : String) (dt : ℝ) (r : ℕ → ProjRnd) (st : GameState) :
    projectilesPhase (some m) dt r st = st := projLoop_msg m dt r _ st

/-- The part of the state the projectile loop never touches: islands,
messages, frame bookkeeping, and the player fields other than
`health` / `active`. -/
def projFrameView (st : GameState) :=
  (st.islands, st.message, st.loadingMessage, st.pendingFetches,
   st.time, st.lastTime, st.frameCount, st.gameOver,
   st.player.rotation, st.player.cooldown, st.player.maxHealth,
   st.player.x, st.player.y, st.player.radius)

lemma processProj_view (dt : ℝ) (r : ProjRnd) (st : GameState) (i : ℕ) :
    projFrameView (processProj dt r st i) = projFrameView st := by
  unfold processProj
  split
  · rfl
  · simp only []
    split_ifs <;> try rfl
    all_goals split <;> (try split_ifs) <;> rfl

lemma projLoop_view (msg : Option String) (dt : ℝ) (r : ℕ → ProjRnd)
    (n : ℕ) (st : GameState) :
    projFrameView (projLoop msg dt r n st) = projFrameView st := by
  induction n generalizing st with
  | zero => rfl
  | succ n ih =>
    simp only [projLoop]
    split_ifs
    · rfl
    · exact (ih (processProj dt (r n) st n)).trans (processProj_view dt (r n) st n)

/-- The part of the state the delivery phase never touches. -/
def deliverFrameView (st : GameState) :=
  (st.player, st.enemies, st.projectiles, st.particles, st.message,
   st.shake, st.gameOver, st.time, st.lastTime, st.frameCount, st.pendingRespawns)

lemma deliverPresent_view (st : GameState) (i : ℕ) :
    deliverFrameView (deliverPresent st i) = deliverFrameView st := by
  unfold deliverPresent
  split <;> rfl

lemma deliveryGo_view (st : GameState) (n : ℕ) :
    deliverFrameView (deliveryGo st n) = deliverFrameView st := by
  induction n with
  | zero => rfl
  | succ n ih =>
    simp only [deliveryGo]
    split
    · exact ih
    · split_ifs
      · exact ih
      · exact (deliverPresent_view _ _).trans ih
      · exact ih

lemma deliveryPhase_view (st : GameState) :
    deliverFrameView (deliveryPhase st) = deliverFrameView st := by
  unfold deliveryPhase
  split_ifs
  · exact deliveryGo_view st _
  · rfl

lemma deliverFrameView_eq {a b : GameState} (h : deliverFrameView a = deliverFrameView b) :
    a.player = b.player ∧ a.enemies = b.enemies ∧ a.projectiles = b.projectiles ∧
    a.particles = b.particles ∧ a.message = b.message ∧ a.shake = b.shake ∧
    a.gameOver = b.gameOver ∧ a.time = b.time ∧ a.lastTime = b.lastTime ∧
    a.frameCount = b.frameCount ∧ a.pendingRespawns = b.pendingRespawns := by
  simpa [deliverFrameView, Prod.ext_iff] using h

lemma projFrameView_eq {a b : GameState} (h : projFrameView a = projFrameView b) :
    a.islands = b.islands ∧ a.message = b.message ∧
    a.loadingMessage = b.loadingMessage ∧ a.pendingFetches = b.pendingFetches ∧
    a.time = b.time ∧ a.lastTime = b.lastTime ∧
    a.frameCount = b.frameCount ∧ a.gameOver = b.gameOver ∧
    a.player.rotation = b.player.rotation ∧ a.player.cooldown = b.player.cooldown ∧
    a.player.maxHealth = b.player.maxHealth ∧ a.player.x = b.player.x ∧
    a.player.y = b.player.y ∧ a.player.radius = b.player.radius := by
  simpa [projFrameView, Prod.ext_iff] using h

/-! ## The health invariant (claim C1) -/

/-- The invariant actually maintained for a ship's health: bounded below by
`lo` (one hit below zero), never above `maxHealth`, and positive while the
ship is active. -/
def shipInv (lo : ℝ) (e : Ship) : Prop :=
  lo < e.health ∧ e.health ≤ e.maxHealth ∧ (e.active = true → 0 < e.health)

/-- The health invariant of the whole world: the player is one 8-damage hit
above `-8`, every enemy one 15-damage hit above `-15`. -/
def healthInv (st : GameState) : Prop :=
  shipInv (-8) st.player ∧ ∀ e ∈ st.enemies, shipInv (-15) e

lemma shipInv_of_healthView {lo : ℝ} {a b : Ship} (h : healthView a = healthView b)
    (hb : shipInv lo b) : shipInv lo a := by
  have h1 : a.health = b.health := congrArg Prod.fst h
  have h2 : a.maxHealth = b.maxHealth := congrArg (fun v => v.2.1) h
  have h3 : a.active = b.active := congrArg (fun v => v.2.2) h
  unfold shipInv at hb ⊢
  rw [h1, h2, h3]
  exact hb

lemma shipInv_of_map_healthView {lo : ℝ} {es es' : List Ship}
    (h : es'.map healthView = es.map healthView)
    (hin : ∀ e ∈ es, shipInv lo e) : ∀ e' ∈ es', shipInv lo e' := by
  intro e' he'
  have : healthView e' ∈ es'.map healthView := List.mem_map_of_mem _ he'
  rw [h] at this
  obtain ⟨e, hmem, heq⟩ := List.mem_map.mp this
  exact shipInv_of_healthView heq.symm (hin e hmem)

/-- Striking the first colliding enemy keeps every enemy's invariant: the
struck enemy was active (hence had positive health), loses exactly 15, and is
deactivated when its health drops to `≤ 0`. -/
lemma strikeFirst_inv (px py pr : ℝ) (es : List Ship)
    (hin : ∀ e ∈ es, shipInv (-15) e) :
    ∀ e' ∈ (strikeFirst px py pr es).1, shipInv (-15) e' := by
  induction es with
  | nil => simp [strikeFirst]
  | cons e es ih =>
    have hine : shipInv (-15) e := hin e (List.mem_cons_self e es)
    have hines : ∀ x ∈ es, shipInv (-15) x := fun x hx => hin x (List.mem_cons_of_mem e hx)
    intro e' he'
    simp only [strikeFirst] at he'
    split_ifs at he' with hc hdead
    · rcases List.mem_cons.mp he' with h | h
      · subst h
        have hpos : 0 < e.health := hine.2.2 hc.1
        refine ⟨by simp; linarith, by simp; linarith [hine.2.1], by simp⟩
      · exact hines _ h
    · rcases List.mem_cons.mp he' with h | h
      · subst h
        have hpos : 0 < e.health := hine.2.2 hc.1
        have : ¬ (e.health - 15 ≤ 0) := by
          simpa using hdead
        refine ⟨by simp; linarith, by simp; linarith [hine.2.1], fun _ => by simp; linarith⟩
      · exact hines _ h
    · rcases List.mem_cons.mp he' with h | h
      · subst h; exact hine
      · exact ih hines _ h

/-- An 8-damage hit that drops the player to `≤ 0` deactivates them; the
invariant survives. -/
lemma shipInv_hit8_dead {p : Ship} (hp : shipInv (-8) p) (hact : p.active = true) :
    shipInv (-8) { p with health := p.health - 8, active := false } := by
  obtain ⟨l, u, a⟩ := hp
  have hpos := a hact
  exact ⟨by simp; linarith, by simp; linarith, by simp⟩

/-- An 8-damage hit that leaves the player above 0 keeps them active with
positive health. -/
lemma shipInv_hit8_alive {p : Ship} (hp : shipInv (-8) p) (hact : p.active = true)
    (halive : ¬ p.health - 8 ≤ 0) :
    shipInv (-8) { p with health := p.health - 8 } := by
  obtain ⟨l, u, a⟩ := hp
  have hpos := a hact
  push_neg at halive
  exact ⟨by simp; linarith, by simp; linarith, fun _ => by simp; linarith⟩

/-- The projectile-loop body preserves the health invariant. -/
lemma processProj_healthInv (dt : ℝ) (r : ProjRnd) (st : GameState) (i : ℕ)
    (h : healthInv st) : healthInv (processProj dt r st i) := by
  obtain ⟨hp, he⟩ := h
  unfold processProj
  split
  · exact ⟨hp, he⟩
  · simp only []
    split_ifs
    all_goals try exact ⟨hp, he⟩
    all_goals
      first
      | (split <;> (try split_ifs) <;> exact ⟨hp, strikeFirst_inv _ _ _ _ he⟩)
      | (rename_i hcond hdead
         exact ⟨shipInv_hit8_dead hp hcond.2.1, he⟩)
      | (rename_i hcond halive
         exact ⟨shipInv_hit8_alive hp hcond.2.1 halive, he⟩)

/-- The projectile loop preserves the health invariant. -/
lemma projLoop_healthInv (msg : Option String) (dt : ℝ) (r : ℕ → ProjRnd)
    (n : ℕ) (st : GameState) (h : healthInv st) :
    healthInv (projLoop msg dt r n st) := by
  induction n generalizing st with
  | zero => exact h
  | succ n ih =>
    simp only [projLoop]
    split_ifs
    · exact h
    · exact ih _ (processProj_healthInv dt (r n) st n h)

/-- `computeDt` one nominal frame after `lastTime = 0`. -/
lemma computeDt_nominal : computeDt 16.67 0 = 1 := by
  unfold computeDt
  norm_num

/-- The motion model is the identity on a ship at rest, heading 0, with no
inputs and `dt = 1`. -/
lemma applyShipPhysics_rest {p : Ship} (hvel : p.velocity = Vec.mk 0 0)
    (hrot : p.rotation = 0) (hav : p.angularVelocity = 0) :
    applyShipPhysics p false false false 1 = p := by
  unfold applyShipPhysics
  ext <;> simp [hvel, hrot, hav, Real.rpow_one] <;>
    norm_num [MAX_ANGULAR_VELOCITY, min_def, max_def]

/-- The player-logic block is the identity on an idle player at the world
centre with elapsed cooldown and no keys pressed. -/
lemma playerPhase_idle {st : GameState} (hact : st.player.active = true)
    (hmsg : st.message = none) (hvel : st.player.velocity = Vec.mk 0 0)
    (hrot : st.player.rotation = 0) (hav : st.player.angularVelocity = 0)
    (hx : st.player.x = 2000) (hy : st.player.y = 2000)
    (hcd : st.player.cooldown = 0) :
    playerPhase keys0 1 playerRnd0 st = st := by
  unfold playerPhase
  simp only [keys0]
  rw [if_pos ⟨hact, hmsg⟩, applyShipPhysics_rest hvel hrot hav]
  have hwake : shipWake st.player playerRnd0.wake = [] := by
    unfold shipWake
    rw [if_neg]
    rw [hvel]
    intro hcontra
    simp at hcontra
    norm_num at hcontra
  rw [hwake]
  have hclamp : { st.player with
      x := max 0 (min WORLD_SIZE st.player.x)
      y := max 0 (min WORLD_SIZE st.player.y) } = st.player := by
    ext <;> simp [hx, hy, WORLD_SIZE] <;> norm_num
  rw [hclamp]
  have hneg1 : ¬ (st.player.cooldown > 0) := by simp [hcd]
  rw [if_neg hneg1]
  have hneg2 : ¬ (false = true ∧ st.player.cooldown ≤ 0) := by simp
  rw [if_neg hneg2]
  ext <;> simp

/-- The enemy phase is the identity when there are no enemies. -/
lemma enemyPhase_nil {st : GameState} (h : st.enemies = []) (dt : ℝ) (r : ℕ → EnemyRnd) :
    enemyPhase dt r st = st := by
  unfold enemyPhase
  rw [h]
  ext <;> simp [enemiesGo, h]

/-- The delivery phase is the identity when there are no islands. -/
lemma deliveryPhase_nil {st : GameState} (h : st.islands = []) :
    deliveryPhase st = st := by
  unfold deliveryPhase
  split_ifs
  · rw [h]; rfl
  · rfl

lemma healthInv_of_views {a b : GameState}
    (hplayer : healthView a.player = healthView b.player)
    (henemies : a.enemies.map healthView = b.enemies.map healthView)
    (h : healthInv b) : healthInv a :=
  ⟨shipInv_of_healthView hplayer h.1, shipInv_of_map_healthView henemies h.2⟩

lemma projectilesPhase_view (msg : Option String) (dt : ℝ) (r : ℕ → ProjRnd)
    (st : GameState) : projFrameView (projectilesPhase msg dt r st) = projFrameView st :=
  projLoop_view msg dt r _ st

/-! ## Broadside lemmas (claim C4) -/

lemma specCannonSpread_bound {d : ℝ} (h0 : 0 ≤ d) (h1 : d < 1) :
    |specCannonSpread d| ≤ 0.1 := by
  rw [abs_le]
  unfold specCannonSpread
  constructor <;> nlinarith

/-- The port volley (`angleOffset = -π/2`) produces exactly the three
spec-described shots of side `-1` at hull offsets `-15, -5, 5`. -/
lemma fireCannons_port_projectiles (q : Ship) (r : Fin 3 → CannonRnd) :
    (fireCannons q .player (-(π / 2)) r).2 =
      [specBroadsideShot q (-1) (-15) (specCannonSpread (r 0).spread) ((r 0).shot.pid),
       specBroadsideShot q (-1) (-5) (specCannonSpread (r 1).spread) ((r 1).shot.pid),
       specBroadsideShot q (-1) 5 (specCannonSpread (r 2).spread) ((r 2).shot.pid)] := by
  have hlt : -(π / 2) < 0 := neg_lt_zero.mpr (by positivity)
  simp only [fireCannons, spawnProjectile, specBroadsideShot, specCannonSpread]
  rw [if_pos hlt]
  norm_num [Matrix.cons_val_zero, Matrix.cons_val_one, Matrix.head_cons]

/-- The starboard volley (`angleOffset = +π/2`) produces exactly the three
spec-described shots of side `+1` at hull offsets `-15, -5, 5`. -/
lemma fireCannons_star_projectiles (q : Ship) (r : Fin 3 → CannonRnd) :
    (fireCannons q .player (π / 2) r).2 =
      [specBroadsideShot q 1 (-15) (specCannonSpread (r 0).spread) ((r 0).shot.pid),
       specBroadsideShot q 1 (-5) (specCannonSpread (r 1).spread) ((r 1).shot.pid),
       specBroadsideShot q 1 5 (specCannonSpread (r 2).spread) ((r 2).shot.pid)] := by
  have hge : ¬ (π / 2 < 0) := not_lt.mpr (by positivity)
  simp only [fireCannons, spawnProjectile, specBroadsideShot, specCannonSpread]
  rw [if_neg hge]
  norm_num [Matrix.cons_val_zero, Matrix.cons_val_one, Matrix.head_cons]

/-- Each volley pushes exactly 3 muzzle-flash particles. -/
lemma fireCannons_muzzle_count (q : Ship) (o : Owner) (aoff : ℝ)
    (r : Fin 3 → CannonRnd) :
    ((fireCannons q o aoff r).1.countP fun p => decide (p.ptype = .muzzle)) = 3 := by
  simp only [fireCannons, spawnProjectile]
  simp [List.countP_append, List.countP_cons]

/-- Each volley pushes exactly 3 smoke particles. -/
lemma fireCannons_smoke_count (q : Ship) (o : Owner) (aoff : ℝ)
    (r : Fin 3 → CannonRnd) :
    ((fireCannons q o aoff r).1.countP fun p => decide (p.ptype = .smoke)) = 3 := by
  simp only [fireCannons, spawnProjectile]
  simp [List.countP_append, List.countP_cons]

/-- A wake emission contains no muzzle-flash particles (only water). -/
lemma shipWake_muzzle_count (s : Ship) (w : WakeRnd) :
    ((shipWake s w).countP fun p => decide (p.ptype = .muzzle)) = 0 := by
  unfold shipWake createWake
  split_ifs <;> simp

/-- A wake emission contains no smoke particles (only water). -/
lemma shipWake_smoke_count (s : Ship) (w : WakeRnd) :
    ((shipWake s w).countP fun p => decide (p.ptype = .smoke)) = 0 := by
  unfold shipWake createWake
  split_ifs <;> simp

/-- The `dt` computed at the top of a frame — negative when the timestamp runs
backwards — is handed to the motion model unchanged: the player's post-frame
rotation is the one `applyShipPhysics` computes with that `dt`. -/
lemma update_player_rotation (t : ℝ) (keys : Keys) (r : FrameRnd) (st : GameState)
    (hact : st.player.active = true) (hmsg : st.message = none) :
    (update t keys r st).player.rotation =
      (applyShipPhysics st.player keys.w keys.a keys.d (computeDt t st.lastTime)).rotation := by
  have hAp : (shakeDecay (gameOverCheck
      { st with lastTime := t, time := st.time + 0.01 * computeDt t st.lastTime })).player
      = st.player := by
    rw [shakeDecay_player, gameOverCheck_player]
  have hAmsg : (shakeDecay (gameOverCheck
      { st with lastTime := t, time := st.time + 0.01 * computeDt t st.lastTime })).message
      = none := by
    rw [shakeDecay_message, gameOverCheck_message]; exact hmsg
  have hAact : (shakeDecay (gameOverCheck
      { st with lastTime := t, time := st.time + 0.01 * computeDt t st.lastTime })).player.active
      = true := by rw [hAp]; exact hact
  unfold update
  simp only []
  rw [(deliverFrameView_eq (deliveryPhase_view _)).1]
  rw [(projFrameView_eq (projectilesPhase_view _ _ _ _)).2.2.2.2.2.2.2.2.1]
  rw [enemyPhase_player]
  rw [playerPhase_rotation _ _ _ _ hAact hAmsg, hAp]

/-- The frame's `dt` also reaches the cooldown decrement unchanged: with the
fire key up and a positive cooldown, the post-frame cooldown is
`cooldown - 1 * dt`. -/
lemma update_player_cooldown (t : ℝ) (keys : Keys) (r : FrameRnd) (st : GameState)
    (hact : st.player.active = true) (hmsg : st.message = none)
    (hspace : keys.space = false) (hcd : st.player.cooldown > 0) :
    (update t keys r st).player.cooldown =
      st.player.cooldown - 1 * computeDt t st.lastTime := by
  have hAp : (shakeDecay (gameOverCheck
      { st with lastTime := t, time := st.time + 0.01 * computeDt t st.lastTime })).player
      = st.player := by
    rw [shakeDecay_player, gameOverCheck_player]
  have hAmsg : (shakeDecay (gameOverCheck
      { st with lastTime := t, time := st.time + 0.01 * computeDt t st.lastTime })).message
      = none := by
    rw [shakeDecay_message, gameOverCheck_message]; exact hmsg
  have hAact : (shakeDecay (gameOverCheck
      { st with lastTime := t, time := st.time + 0.01 * computeDt t st.lastTime })).player.active
      = true := by rw [hAp]; exact hact
  have hAcd : (shakeDecay (gameOverCheck
      { st with lastTime := t, time := st.time + 0.01 * computeDt t st.lastTime })).player.cooldown
      > 0 := by rw [hAp]; exact hcd
  unfold update
  simp only []
  rw [(deliverFrameView_eq (deliveryPhase_view _)).1]
  rw [(projFrameView_eq (projectilesPhase_view _ _ _ _)).2.2.2.2.2.2.2.2.2.1]
  rw [enemyPhase_player]
  rw [playerPhase_cooldown_nofire _ _ _ _ hAact hAmsg hspace hAcd, hAp]

/-! ## Enemy-spawn lemmas (claim C5) -/

/-- The rejection sampling only ever returns a position at distance at least
`minDist`. -/
lemma firstFarPos_far (cx cy minDist : ℝ) (l : List (ℝ × ℝ)) (pos : ℝ × ℝ)
    (h : firstFarPos cx cy minDist l = some pos) :
    ¬ Real.sqrt ((pos.1 - cx) ^ 2 + (pos.2 - cy) ^ 2) < minDist := by
  induction l with
  | nil => simp [firstFarPos] at h
  | cons c cs ih =>
    simp only [firstFarPos] at h
    split_ifs at h with hc
    · exact ih h
    · obtain rfl : c = pos := Option.some.inj h
      exact hc

/-- The single candidate of `c5Rnd` scales to `(3500, 2000)` and is accepted
(1500 units from the player at the world centre). -/
lemma c5_firstFarPos :
    firstFarPos 2000 2000 1000
      (c5Rnd.cands.map fun c => (c.1 * WORLD_SIZE, c.2 * WORLD_SIZE))
      = some (3500, 2000) := by
  have hmap : (c5Rnd.cands.map fun c => (c.1 * WORLD_SIZE, c.2 * WORLD_SIZE))
      = [((3500:ℝ), (2000:ℝ))] := by
    norm_num [c5Rnd, WORLD_SIZE]
  rw [hmap]
  have hdist : ¬ Real.sqrt (((3500:ℝ), (2000:ℝ)).1 - 2000) ^ 2 < 1000 := by
    norm_num
  simp only [firstFarPos]
  rw [if_neg]
  have h15 : (((3500:ℝ), (2000:ℝ)).1 - 2000) ^ 2 + (((3500:ℝ), (2000:ℝ)).2 - 2000) ^ 2
      = 1500 ^ 2 := by norm_num
  rw [h15, Real.sqrt_sq (by norm_num : (0:ℝ) ≤ 1500)]
  norm_num

/-! ## Drag-thrust equilibrium lemmas (claim C7) -/

/-- One motion-model step of the C7 scenario: heading and angular velocity
stay 0, lateral velocity stays 0, and the forward speed follows
`v ↦ FORWARD_DRAG * (v + SHIP_THRUST)`. -/
lemma c7_step {s : Ship} (hrot : s.rotation = 0) (hav : s.angularVelocity = 0)
    (hvy : s.velocity.y = 0) :
    (applyShipPhysics s true false false 1).rotation = 0 ∧
    (applyShipPhysics s true false false 1).angularVelocity = 0 ∧
    (applyShipPhysics s true false false 1).velocity.y = 0 ∧
    (applyShipPhysics s true false false 1).velocity.x
      = 0.99 * (s.velocity.x + 0.15) := by
  unfold applyShipPhysics
  refine ⟨?_, ?_, ?_, ?_⟩ <;>
    norm_num [hrot, hav, hvy, Real.rpow_one, FORWARD_DRAG, SIDEWAYS_DRAG, SHIP_THRUST,
      MAX_ANGULAR_VELOCITY, ANGULAR_DRAG, min_def, max_def] <;>
    ring_nf

lemma c7Iter_succ (n : ℕ) :
    c7Iter (n + 1) = applyShipPhysics (c7Iter n) true false false 1 := by
  unfold c7Iter
  exact Function.iterate_succ_apply' _ _ _

/-- Closed form of the C7 scenario: after `n` steps the ship still heads 0
with no lateral drift, and its forward speed is `14.85 * (1 - 0.99 ^ n)`. -/
lemma c7Iter_fields (n : ℕ) :
    (c7Iter n).rotation = 0 ∧ (c7Iter n).angularVelocity = 0 ∧
    (c7Iter n).velocity.y = 0 ∧
    (c7Iter n).velocity.x = 14.85 * (1 - 0.99 ^ n) := by
  induction n with
  | zero =>
    refine ⟨rfl, rfl, rfl, ?_⟩
    norm_num [c7Iter, basePlayer]
  | succ n ih =>
    obtain ⟨h1, h2, h3, h4⟩ := ih
    have hstep := c7_step h1 h2 h3
    refine ⟨?_, ?_, ?_, ?_⟩
    · rw [c7Iter_succ]; exact hstep.1
    · rw [c7Iter_succ]; exact hstep.2.1
    · rw [c7Iter_succ]; exact hstep.2.2.1
    · rw [c7Iter_succ, hstep.2.2.2, h4, pow_succ]
      ring

/-- What one frame does while a narrative message is displayed: the player,
enemy, projectile and delivery phases are all skipped, but the particle phase
still runs in full. -/
lemma update_msg_eval (t : ℝ) (keys : Keys) (r : FrameRnd) (st : GameState)
    (m : String) (h : st.message = some m) :
    (update t keys r st).projectiles = st.projectiles ∧
    (update t keys r st).player = st.player ∧
    (update t keys r st).enemies = st.enemies ∧
    (update t keys r st).particles = particlesPhase (computeDt t st.lastTime)
        (st.time + 0.01 * computeDt t st.lastTime) r.glint st.particles := by
  unfold update
  simp only []
  have hAmsg : (shakeDecay (gameOverCheck
      { st with lastTime := t, time := st.time + 0.01 * computeDt t st.lastTime })).message
      = some m := by
    rw [shakeDecay_message, gameOverCheck_message]; exact h
  rw [playerPhase_msg keys _ r.player _ m hAmsg]
  set A := shakeDecay (gameOverCheck
    { st with lastTime := t, time := st.time + 0.01 * computeDt t st.lastTime }) with hA
  have hAproj : A.projectiles = st.projectiles := by
    rw [hA, shakeDecay_projectiles, gameOverCheck_projectiles]
  have hAplayer : A.player = st.player := by
    rw [hA, shakeDecay_player, gameOverCheck_player]
  have hAen : A.enemies = st.enemies := by
    rw [hA, shakeDecay_enemies, gameOverCheck_enemies]
  have hApart : A.particles = st.particles := by
    rw [hA, shakeDecay_particles, gameOverCheck_particles]
  have hAtime : A.time = st.time + 0.01 * computeDt t st.lastTime := by
    rw [hA, shakeDecay_time, gameOverCheck_time]
  obtain ⟨hCen, hCpart, hCproj⟩ := enemyPhase_msg (computeDt t st.lastTime) r.enemy A m hAmsg
  have hCmsg : (enemyPhase (computeDt t st.lastTime) r.enemy A).message = some m := by
    rw [enemyPhase_message]; exact hAmsg
  rw [hCmsg, projectilesPhase_msg, deliveryPhase_msg _ m hCmsg]
  refine ⟨?_, ?_, ?_, ?_⟩
  · simpa using hCproj.trans hAproj
  · simpa [enemyPhase_player] using hAplayer
  · simpa using hCen.trans hAen
  · show particlesPhase _ _ _ _ = _
    rw [enemyPhase_time, hAtime, hCpart, hApart]

lemma baseState_healthInv : healthInv baseState := by
  refine ⟨⟨?_, ?_, ?_⟩, ?_⟩ <;> norm_num [baseState, basePlayer]

lemma sqrt_hundred : Real.sqrt 100 = 10 := by
  rw [show (100:ℝ) = 10 ^ 2 by norm_num, Real.sqrt_sq]
  norm_num

set_option maxHeartbeats 2000000 in
/-- Evaluating one frame on `c1State`: the enemy cannonball hits the player at
health 5, leaving health `5 - 8 = -3` and deactivating them. -/
lemma update_c1_eval :
    (update 16.67 keys0 frameRnd0 c1State).player.health = -3 := by
  norm_num [update, computeDt, gameOverCheck, shakeDecay, playerPhase, applyShipPhysics,
    shipWake, enemyPhase, enemiesGo, projectilesPhase, projLoop, processProj,
    deliveryPhase, deliveryGo, checkCollision, strikeFirst,
    c1State, baseState, basePlayer, keys0, frameRnd0, playerRnd0, projRnd0, wake0,
    WORLD_SIZE, MAX_ANGULAR_VELOCITY, ANGULAR_DRAG, FORWARD_DRAG, SIDEWAYS_DRAG,
    Real.rpow_one, sqrt_hundred, min_def, max_def]

/-- A whole frame update preserves the health invariant. -/
lemma update_healthInv_aux (t : ℝ) (keys : Keys) (r : FrameRnd) (st : GameState)
    (h : healthInv st) : healthInv (update t keys r st) := by
  have h1 : healthInv (shakeDecay (gameOverCheck
      { st with lastTime := t, time := st.time + 0.01 * computeDt t st.lastTime })) := by
    refine healthInv_of_views ?_ ?_ h
    · rw [shakeDecay_player, gameOverCheck_player]
    · rw [shakeDecay_enemies, gameOverCheck_enemies]
  have h2 : ∀ st', healthInv st' →
      healthInv (playerPhase keys (computeDt t st.lastTime) r.player st') := by
    intro st' h'
    refine healthInv_of_views ?_ ?_ h'
    · simp [healthView, playerPhase_player_health, playerPhase_player_maxHealth,
        playerPhase_player_active]
    · rw [playerPhase_enemies]
  have h3 : ∀ st', healthInv st' →
      healthInv (enemyPhase (computeDt t st.lastTime) r.enemy st') := by
    intro st' h'
    refine healthInv_of_views ?_ ?_ h'
    · rw [enemyPhase_player]
    · exact enemyPhase_healthView _ _ _
  have h5 : ∀ st' : GameState, healthInv st' → healthInv (deliveryPhase st') := by
    intro st' h'
    obtain ⟨hpl, hen, -⟩ := deliverFrameView_eq (deliveryPhase_view st')
    refine healthInv_of_views ?_ ?_ h'
    · rw [hpl]
    · rw [hen]
  exact h5 _ (projLoop_healthInv _ _ _ _ _ (h3 _ (h2 _ h1)))

set_option maxHeartbeats 2000000 in
/-- Evaluating one frame on `c2State`: with only the loading state active the
projectile loop is not skipped, and the cannonball advances from `x = 2000`
to `x = 2009`. -/
lemma update_c2_eval :
    (update 16.67 keys0 frameRnd0 c2State).projectiles.map Projectile.x = [2009] := by
  norm_num [update, computeDt, gameOverCheck, shakeDecay, playerPhase, applyShipPhysics,
    shipWake, enemyPhase, enemiesGo, projectilesPhase, projLoop, processProj, strikeFirst,
    deliveryPhase, deliveryGo, particlesPhase, partLoop, processPart, checkCollision,
    c2State, baseState, basePlayer, keys0, frameRnd0, playerRnd0, projRnd0, wake0,
    WORLD_SIZE, MAX_ANGULAR_VELOCITY, ANGULAR_DRAG, FORWARD_DRAG, SIDEWAYS_DRAG,
    Real.rpow_one, min_def, max_def]
  have hneg : ¬ (Owner.player = Owner.enemy ∧ Real.sqrt 81 < 28) := by simp
  rw [if_neg hneg]
  rfl

/-- A non-glint particle is integrated, decayed by `0.02 * dt`, shrunk by
`0.95`, and removed exactly when its life drops to `≤ 0`. -/
lemma particlesPhase_single (dt time : ℝ) (g : ℕ → GlintRnd) (p : Particle)
    (h : ¬ p.ptype = .glint) :
    particlesPhase dt time g [p] =
      if p.life - 0.02 * dt ≤ 0 then []
      else [{ p with
                x := p.x + p.velocity.x * dt
                y := p.y + p.velocity.y * dt
                life := p.life - 0.02 * dt
                size := p.size * 0.95 }] := by
  show partLoop dt time g 1 [p] = _
  simp only [partLoop, processPart]
  simp [h]

/-- Evaluating one frame on `c6State`: the displayed message does not stop the
smoke particle from moving, decaying and shrinking. -/
lemma update_c6_eval :
    (update 16.67 keys0 frameRnd0 c6State).particles.map
      (fun p => (p.x, p.life, p.size)) = [(103, 0.98, 1.9)] := by
  have h := (update_msg_eval 16.67 keys0 frameRnd0 c6State "Ahoy" rfl).2.2.2
  rw [h]
  have hdt : computeDt 16.67 c6State.lastTime = 1 := computeDt_nominal
  rw [hdt]
  rw [show c6State.particles = [c6Part] from rfl]
  rw [particlesPhase_single _ _ _ _ (by simp [c6Part])]
  norm_num [c6Part]

/-! ## Damage-independence (claim C10)

The update loop never reads a projectile's `damage` field: every phase is
congruent with respect to `eqUpToDamage`, the relation that erases all damage
fields. -/

lemma map_eraseIdx_comm {α β : Type} (f : α → β) :
    ∀ (l : List α) (n : ℕ), (l.eraseIdx n).map f = (l.map f).eraseIdx n
  | [], _ => rfl
  | _ :: _, 0 => rfl
  | a :: l, n + 1 => congrArg (List.cons (f a)) (map_eraseIdx_comm f l n)

lemma gameOverCheck_rel {a b : GameState} (h : eqUpToDamage a b) :
    eqUpToDamage (gameOverCheck a) (gameOverCheck b) := by
  obtain ⟨hpl, hen, hpa, his, hpr, hsh, hlt, hti, hfc, hsc, hgo, hms, hlm, hpf, hprs⟩ := h
  unfold gameOverCheck
  rw [hpl]
  split_ifs <;>
    refine ⟨?_, ?_, ?_, ?_, ?_, ?_, ?_, ?_, ?_, ?_, ?_, ?_, ?_, ?_, ?_⟩ <;>
    simp only [hpl, hen, hpa, his, hpr, hsh, hlt, hti, hfc, hsc, hgo, hms, hlm, hpf, hprs]

lemma shakeDecay_rel {a b : GameState} (h : eqUpToDamage a b) :
    eqUpToDamage (shakeDecay a) (shakeDecay b) := by
  obtain ⟨hpl, hen, hpa, his, hpr, hsh, hlt, hti, hfc, hsc, hgo, hms, hlm, hpf, hprs⟩ := h
  unfold shakeDecay
  simp only [apply_ite GameState.shake, hpl, hen, hpa, his, hsh, hlt, hti, hfc, hsc,
    hgo, hms, hlm, hpf, hprs]
  split_ifs <;>
    refine ⟨?_, ?_, ?_, ?_, ?_, ?_, ?_, ?_, ?_, ?_, ?_, ?_, ?_, ?_, ?_⟩ <;>
    simp only [hpl, hen, hpa, his, hpr, hsh, hlt, hti, hfc, hsc, hgo, hms, hlm, hpf, hprs]

lemma playerPhase_rel (keys : Keys) (dt : ℝ) (r : PlayerRnd) {a b : GameState}
    (h : eqUpToDamage a b) :
    eqUpToDamage (playerPhase keys dt r a) (playerPhase keys dt r b) := by
  obtain ⟨hpl, hen, hpa, his, hpr, hsh, hlt, hti, hfc, hsc, hgo, hms, hlm, hpf, hprs⟩ := h
  unfold playerPhase
  simp only [hpl, hen, hpa, his, hsh, hlt, hti, hfc, hsc, hgo, hms, hlm, hpf, hprs]
  split_ifs <;>
    refine ⟨?_, ?_, ?_, ?_, ?_, ?_, ?_, ?_, ?_, ?_, ?_, ?_, ?_, ?_, ?_⟩ <;>
    simp only [List.map_append, hpl, hen, hpa, his, hpr, hsh, hlt, hti, hfc, hsc, hgo,
      hms, hlm, hpf, hprs]

lemma enemyPhase_rel (dt : ℝ) (r : ℕ → EnemyRnd) {a b : GameState}
    (h : eqUpToDamage a b) :
    eqUpToDamage (enemyPhase dt r a) (enemyPhase dt r b) := by
  obtain ⟨hpl, hen, hpa, his, hpr, hsh, hlt, hti, hfc, hsc, hgo, hms, hlm, hpf, hprs⟩ := h
  unfold enemyPhase
  simp only [hpl, hen, hpa, his, hsh, hlt, hti, hfc, hsc, hgo, hms, hlm, hpf, hprs]
  refine ⟨?_, ?_, ?_, ?_, ?_, ?_, ?_, ?_, ?_, ?_, ?_, ?_, ?_, ?_, ?_⟩ <;>
    simp only [List.map_append, hpr]

lemma processProj_rel (dt : ℝ) (r : ProjRnd) (i : ℕ) {a b : GameState}
    (h : eqUpToDamage a b) :
    eqUpToDamage (processProj dt r a i) (processProj dt r b i) := by
  obtain ⟨hpl, hen, hpa, his, hpr, hsh, hlt, hti, hfc, hsc, hgo, hms, hlm, hpf, hprs⟩ := h
  have hget : Option.map dropDamage (a.projectiles.get? i)
      = Option.map dropDamage (b.projectiles.get? i) := by
    rw [← List.get?_map, ← List.get?_map, hpr]
  unfold processProj
  rcases ha : a.projectiles.get? i with _ | pa <;> rcases hb : b.projectiles.get? i with _ | pb
  · exact ⟨hpl, hen, hpa, his, hpr, hsh, hlt, hti, hfc, hsc, hgo, hms, hlm, hpf, hprs⟩
  · rw [ha, hb] at hget
    simp at hget
  · rw [ha, hb] at hget
    simp at hget
  · rw [ha, hb] at hget
    simp only [Option.map_some', Option.some.injEq] at hget
    have h1 : pa.id = pb.id := by have hq := congrArg Projectile.id hget; exact hq
    have h2 : pa.x = pb.x := by have hq := congrArg Projectile.x hget; exact hq
    have h3 : pa.y = pb.y := by have hq := congrArg Projectile.y hget; exact hq
    have h4 : pa.radius = pb.radius := by
      have hq := congrArg Projectile.radius hget; exact hq
    have h5 : pa.rotation = pb.rotation := by
      have hq := congrArg Projectile.rotation hget; exact hq
    have h6 : pa.active = pb.active := by
      have hq := congrArg Projectile.active hget; exact hq
    have h7 : pa.velocity = pb.velocity := by
      have hq := congrArg Projectile.velocity hget; exact hq
    have h8 : pa.owner = pb.owner := by
      have hq := congrArg Projectile.owner hget; exact hq
    simp only [h1, h2, h3, h4, h5, h6, h7, h8, hpl, hen, hpa, his, hsh, hlt, hti, hfc,
      hsc, hgo, hms, hlm, hpf, hprs]
    by_cases htr : r.trailCoin > 0.7
    · simp only [if_pos htr]
      split_ifs <;>
        first
          | exact ⟨rfl, rfl, rfl, rfl,
              by simp only [map_eraseIdx_comm, List.map_set, hpr]; try rfl,
              rfl, rfl, rfl, rfl, rfl, rfl, rfl, rfl, rfl, rfl⟩
          | (split <;>
              first
                | exact ⟨rfl, rfl, rfl, rfl,
                    by simp only [map_eraseIdx_comm, List.map_set, hpr]; try rfl,
                    rfl, rfl, rfl, rfl, rfl, rfl, rfl, rfl, rfl, rfl⟩
                | (split_ifs <;>
                    exact ⟨rfl, rfl, rfl, rfl,
                      by simp only [map_eraseIdx_comm, List.map_set, hpr]; try rfl,
                      rfl, rfl, rfl, rfl, rfl, rfl, rfl, rfl, rfl, rfl⟩))
    · simp only [if_neg htr]
      split_ifs <;>
        first
          | exact ⟨rfl, rfl, rfl, rfl,
              by simp only [map_eraseIdx_comm, List.map_set, hpr]; try rfl,
              rfl, rfl, rfl, rfl, rfl, rfl, rfl, rfl, rfl, rfl⟩
          | (split <;>
              first
                | exact ⟨rfl, rfl, rfl, rfl,
                    by simp only [map_eraseIdx_comm, List.map_set, hpr]; try rfl,
                    rfl, rfl, rfl, rfl, rfl, rfl, rfl, rfl, rfl, rfl⟩
                | (split_ifs <;>
                    exact ⟨rfl, rfl, rfl, rfl,
                      by simp only [map_eraseIdx_comm, List.map_set, hpr]; try rfl,
                      rfl, rfl, rfl, rfl, rfl, rfl, rfl, rfl, rfl, rfl⟩))

lemma projLoop_rel (msg : Option String) (dt : ℝ) (r : ℕ → ProjRnd) :
    ∀ (n : ℕ) {a b : GameState}, eqUpToDamage a b →
      eqUpToDamage (projLoop msg dt r n a) (projLoop msg dt r n b)
  | 0, _, _, h => h
  | n + 1, a, b, h => by
    unfold projLoop
    split_ifs with hm
    · exact h
    · exact projLoop_rel msg dt r n (processProj_rel dt (r n) n h)

lemma projectilesPhase_rel (msg : Option String) (dt : ℝ) (r : ℕ → ProjRnd)
    {a b : GameState} (h : eqUpToDamage a b) :
    eqUpToDamage (projectilesPhase msg dt r a) (projectilesPhase msg dt r b) := by
  have hlen : a.projectiles.length = b.projectiles.length := by
    have h5 := congrArg List.length h.2.2.2.2.1
    simpa using h5
  unfold projectilesPhase
  rw [hlen]
  exact projLoop_rel msg dt r _ h

lemma deliverPresent_rel (i : ℕ) {a b : GameState} (h : eqUpToDamage a b) :
    eqUpToDamage (deliverPresent a i) (deliverPresent b i) := by
  obtain ⟨hpl, hen, hpa, his, hpr, hsh, hlt, hti, hfc, hsc, hgo, hms, hlm, hpf, hprs⟩ := h
  unfold deliverPresent
  rw [his]
  cases hb : b.islands.get? i with
  | none => exact ⟨hpl, hen, hpa, his, hpr, hsh, hlt, hti, hfc, hsc, hgo, hms, hlm, hpf, hprs⟩
  | some isl =>
      refine ⟨?_, ?_, ?_, ?_, ?_, ?_, ?_, ?_, ?_, ?_, ?_, ?_, ?_, ?_, ?_⟩ <;>
        simp only [hpl, hen, hpa, his, hpr, hsh, hlt, hti, hfc, hsc, hgo, hms, hlm, hpf, hprs]

lemma deliveryGo_rel : ∀ (n : ℕ) {a b : GameState}, eqUpToDamage a b →
    eqUpToDamage (deliveryGo a n) (deliveryGo b n)
  | 0, _, _, h => h
  | n + 1, a, b, h => by
    have ih := deliveryGo_rel n h
    obtain ⟨hpl, hen, hpa, his, hpr, hsh, hlt, hti, hfc, hsc, hgo, hms, hlm, hpf, hprs⟩ := ih
    unfold deliveryGo
    simp only []
    rw [his, hpl]
    cases hb : (deliveryGo b n).islands.get? n with
    | none => exact ⟨hpl, hen, hpa, his, hpr, hsh, hlt, hti, hfc, hsc, hgo, hms, hlm, hpf, hprs⟩
    | some isl =>
        simp only []
        split_ifs with hdel hcol
        · exact ⟨hpl, hen, hpa, his, hpr, hsh, hlt, hti, hfc, hsc, hgo, hms, hlm, hpf, hprs⟩
        · exact deliverPresent_rel n
            ⟨hpl, hen, hpa, his, hpr, hsh, hlt, hti, hfc, hsc, hgo, hms, hlm, hpf, hprs⟩
        · exact ⟨hpl, hen, hpa, his, hpr, hsh, hlt, hti, hfc, hsc, hgo, hms, hlm, hpf, hprs⟩

lemma deliveryPhase_rel {a b : GameState} (h : eqUpToDamage a b) :
    eqUpToDamage (deliveryPhase a) (deliveryPhase b) := by
  have hpl : a.player = b.player := h.1
  have his : a.islands = b.islands := h.2.2.2.1
  have hms : a.message = b.message := h.2.2.2.2.2.2.2.2.2.2.2.1
  have hlm : a.loadingMessage = b.loadingMessage := h.2.2.2.2.2.2.2.2.2.2.2.2.1
  unfold deliveryPhase
  rw [hpl, hms, hlm, his]
  split_ifs with hc
  · exact deliveryGo_rel _ h
  · exact h

lemma update_rel (t : ℝ) (keys : Keys) (r : FrameRnd) {a b : GameState}
    (h : eqUpToDamage a b) :
    eqUpToDamage (update t keys r a) (update t keys r b) := by
  have hlt : a.lastTime = b.lastTime := h.2.2.2.2.2.2.1
  have hti : a.time = b.time := h.2.2.2.2.2.2.2.1
  unfold update
  simp only []
  rw [hlt, hti]
  have h0 : eqUpToDamage
      { a with lastTime := t, time := b.time + 0.01 * computeDt t b.lastTime }
      { b with lastTime := t, time := b.time + 0.01 * computeDt t b.lastTime } := by
    obtain ⟨hpl, hen, hpa, his, hpr, hsh, hlt2, hti2, hfc, hsc, hgo, hms, hlm, hpf, hprs⟩ := h
    exact ⟨hpl, hen, hpa, his, hpr, hsh, rfl, rfl, hfc, hsc, hgo, hms, hlm, hpf, hprs⟩
  have h1 := shakeDecay_rel (gameOverCheck_rel h0)
  have h2 := playerPhase_rel keys (computeDt t b.lastTime) r.player h1
  have h3 := enemyPhase_rel (computeDt t b.lastTime) r.enemy h2
  have hmsg := h3.2.2.2.2.2.2.2.2.2.2.2.1
  rw [hmsg]
  have h4 := projectilesPhase_rel
    (enemyPhase (computeDt t b.lastTime) r.enemy
      (playerPhase keys (computeDt t b.lastTime) r.player
        (shakeDecay (gameOverCheck
          { b with lastTime := t, time := b.time + 0.01 * computeDt t b.lastTime })))).message
    (computeDt t b.lastTime) r.proj h3
  have h5 := deliveryPhase_rel h4
  obtain ⟨k1, k2, k3, k4, k5, k6, k7, k8, k9, k10, k11, k12, k13, k14, k15⟩ := h5
  refine ⟨?_, ?_, ?_, ?_, ?_, ?_, ?_, ?_, ?_, ?_, ?_, ?_, ?_, ?_, ?_⟩ <;>
    simp only [k1, k2, k3, k4, k5, k6, k7, k8, k9, k10, k11, k12, k13, k14, k15]

lemma strikeFirst_head_health (px py pr : ℝ) (e : Ship) (es : List Ship)
    (hact : e.active = true)
    (hcol : checkCollision px py pr e.x e.y e.radius) :
    ((strikeFirst px py pr (e :: es)).1.head?.map Ship.health) = some (e.health - 15) := by
  have hc : e.active = true ∧ checkCollision px py pr e.x e.y e.radius := ⟨hact, hcol⟩
  unfold strikeFirst
  rw [if_pos hc]
  simp only []
  split_ifs <;> rfl

lemma processProj_player_hit (dt : ℝ) (r : ProjRnd) (st : GameState) (i : ℕ)
    (proj : Projectile)
    (hget : st.projectiles.get? i = some proj)
    (hown : proj.owner = Owner.enemy)
    (hact : st.player.active = true)
    (hin : ¬(proj.x + proj.velocity.x * dt < (0:ℝ)
          ∨ proj.x + proj.velocity.x * dt > WORLD_SIZE
          ∨ proj.y + proj.velocity.y * dt < (0:ℝ)
          ∨ proj.y + proj.velocity.y * dt > WORLD_SIZE))
    (hcol : checkCollision (proj.x + proj.velocity.x * dt) (proj.y + proj.velocity.y * dt)
        proj.radius st.player.x st.player.y st.player.radius) :
    (processProj dt r st i).player.health = st.player.health - 8 := by
  have hc2 : proj.owner = Owner.enemy ∧ st.player.active = true ∧
      checkCollision (proj.x + proj.velocity.x * dt) (proj.y + proj.velocity.y * dt)
        proj.radius st.player.x st.player.y st.player.radius := ⟨hown, hact, hcol⟩
  unfold processProj
  rw [hget]
  by_cases htr : r.trailCoin > 0.7
  · simp only [if_pos htr]
    rw [if_neg hin]
    rw [if_pos hc2]
    split_ifs <;> rfl
  · simp only [if_neg htr]
    rw [if_neg hin]
    rw [if_pos hc2]
    split_ifs <;> rfl

/-! # Claims -/

/-- C1, counterexample: the claim says no ship's health field is ever negative
after a frame update.  On the concrete input `c1State` (player at health 5, an
enemy cannonball 10 units away), one frame update applies the 8-damage hit and
leaves the player's health field at `-3 < 0` — the code deactivates the ship
but never clamps the health field at 0. -/
theorem C1_counterexample :
    (update 16.67 keys0 frameRnd0 c1State).player.health = -3 ∧
    (update 16.67 keys0 frameRnd0 c1State).player.health < 0 :=
  ⟨update_c1_eval, by rw [update_c1_eval]; norm_num⟩

/-- C1, amended: after any frame-update step, health never exceeds
`maxHealth`, any ship whose health is `≤ 0` is inactive (equivalently, active
ships have positive health), and health is bounded below by one hit's damage
under zero (`-8` for the player, `-15` for an enemy) — but the health field
itself is not clamped at 0 and can be negative. -/
theorem C1_health_invariant_amended (t : ℝ) (keys : Keys) (r : FrameRnd)
    (st : GameState) (h : healthInv st) : healthInv (update t keys r st) :=
  update_healthInv_aux t keys r st h

/-- C1 witness: the amended invariant applied to a concrete frame update. -/
theorem C1_health_invariant_amended_witness :
    healthInv baseState ∧ healthInv (update 16.67 keys0 frameRnd0 baseState) :=
  ⟨baseState_healthInv,
   C1_health_invariant_amended 16.67 keys0 frameRnd0 baseState baseState_healthInv⟩

/-- C2, counterexample: the claim counts the loading state (fetch pending,
`loadingMessage` true, no text yet) as part of the pause gate.  On the
concrete input `c2State` — loading active, message `none`, one player
cannonball at `x = 2000` with velocity `(9, 0)` — a frame update moves the
projectile to `x = 2009`: projectiles are not frozen during the loading
state, because every gate in the frame loop tests only `message`. -/
theorem C2_counterexample :
    c2State.loadingMessage = true ∧ c2State.message = none ∧
    c2State.projectiles.map Projectile.x = [2000] ∧
    (update 16.67 keys0 frameRnd0 c2State).projectiles.map Projectile.x = [2009] :=
  ⟨rfl, rfl, rfl, update_c2_eval⟩

/-- C2, amended: the pause gate that freezes projectiles is only a loaded
message (`message ≠ null`).  Whenever a message is displayed, a frame update
leaves every projectile unchanged (none moves, none is removed) and applies
no damage to the player or any enemy; during the loading-only state the
projectiles keep advancing. -/
theorem C2_message_freezes_projectiles_amended (t : ℝ) (keys : Keys)
    (r : FrameRnd) (st : GameState) (m : String) (h : st.message = some m) :
    (update t keys r st).projectiles = st.projectiles ∧
    (update t keys r st).player.health = st.player.health ∧
    (update t keys r st).enemies.map Ship.health = st.enemies.map Ship.health := by
  obtain ⟨h1, h2, h3, -⟩ := update_msg_eval t keys r st m h
  exact ⟨h1, by rw [h2], by rw [h3]⟩

/-- C2 witness: the amended freeze applied to a concrete paused frame. -/
theorem C2_message_freezes_projectiles_amended_witness :
    (update 16.67 keys0 frameRnd0 cMsgState).projectiles = cMsgState.projectiles ∧
    (update 16.67 keys0 frameRnd0 cMsgState).player.health = cMsgState.player.health ∧
    (update 16.67 keys0 frameRnd0 cMsgState).enemies.map Ship.health =
      cMsgState.enemies.map Ship.health :=
  C2_message_freezes_projectiles_amended 16.67 keys0 frameRnd0 cMsgState "Ahoy" rfl

/-- C6, counterexample: the claim says non-glint particles are frozen while
the pause gate is active.  On the concrete input `c6State` — message
displayed, one smoke particle at `x = 100` with velocity `(3, 0)`, life 1,
size 2 — a frame update still integrates, decays and shrinks the particle to
`(x, life, size) = (103, 0.98, 1.9)`: the particle loop never checks the
pause gate. -/
theorem C6_counterexample :
    c6State.message = some "Ahoy" ∧
    c6State.particles.map (fun p => (p.x, p.life, p.size)) = [(100, 1, 2)] ∧
    (update 16.67 keys0 frameRnd0 c6State).particles.map
      (fun p => (p.x, p.life, p.size)) = [(103, 0.98, 1.9)] :=
  ⟨rfl, rfl, update_c6_eval⟩

/-- C6, amended: the pause gate does not freeze non-glint particles.  Even
with a message displayed, the frame update runs the full particle phase on
the particle store, and a non-glint particle is integrated by
`velocity * dt`, loses `0.02 * dt` life, shrinks by `0.95`, and is removed
exactly when its life drops to `≤ 0`. -/
theorem C6_particles_not_frozen_amended (t : ℝ) (keys : Keys) (r : FrameRnd)
    (st : GameState) (m : String) (h : st.message = some m) :
    (update t keys r st).particles = particlesPhase (computeDt t st.lastTime)
      (st.time + 0.01 * computeDt t st.lastTime) r.glint st.particles ∧
    ∀ (p : Particle), ¬ p.ptype = .glint → ∀ (dt time : ℝ) (g : ℕ → GlintRnd),
      particlesPhase dt time g [p] =
        if p.life - 0.02 * dt ≤ 0 then []
        else [{ p with
                  x := p.x + p.velocity.x * dt
                  y := p.y + p.velocity.y * dt
                  life := p.life - 0.02 * dt
                  size := p.size * 0.95 }] :=
  ⟨(update_msg_eval t keys r st m h).2.2.2,
   fun p hp dt time g => particlesPhase_single dt time g p hp⟩

/-- C6 witness: the amended statement applied to a concrete paused frame. -/
theorem C6_particles_not_frozen_amended_witness :
    (update 16.67 keys0 frameRnd0 c6State).particles =
      particlesPhase (computeDt 16.67 c6State.lastTime)
        (c6State.time + 0.01 * computeDt 16.67 c6State.lastTime)
        frameRnd0.glint c6State.particles :=
  (C6_particles_not_frozen_amended 16.67 keys0 frameRnd0 c6State "Ahoy" rfl).1

/-- C3, code bug: the spec requires that when a session resets while a
delivery's narrative fetch is pending, the eventual result is discarded.  The
code has no such guard: on the trace deliver → reset → fetch-resolves, the
continuation of `deliverPresent` (`setLoadingMessage(false); setMessage(text)`
after the `await`) applies the stale text as the displayed message of the
post-reset session, overwriting the fresh welcome message. -/
theorem C3_stale_fetch_applied :
    (stepSession (.deliver 0) c3State).pendingFetches = 1 ∧
    (stepSession (.deliver 0) c3State).loadingMessage = true ∧
    (stepSession (.reset initRnd0) (stepSession (.deliver 0) c3State)).message
      = some welcomeMessage ∧
    (stepSession (.reset initRnd0) (stepSession (.deliver 0) c3State)).pendingFetches = 1 ∧
    (stepSession (.fetchDone "A stale tale") (stepSession (.reset initRnd0)
        (stepSession (.deliver 0) c3State))).message = some "A stale tale" ∧
    ("A stale tale" : String) ≠ welcomeMessage := by
  refine ⟨rfl, rfl, rfl, rfl, ?_, by decide⟩
  have hpos : 0 < (initGame initRnd0 (deliverPresent c3State 0)).pendingFetches := by
    show (0:ℕ) < 1
    norm_num
  simp only [stepSession]
  rw [if_pos hpos]
  rfl

/-- C8: `generatePirateEvent` is a total function of the fetch outcome — a
thrown error or an absent/empty response text is replaced by a fixed fallback
string, and a non-empty text is returned as is; no failure propagates. -/
theorem C8_fetch_never_crashes :
    generatePirateEvent .failure = "The sea is silent... (API Error)" ∧
    generatePirateEvent (.success none) = "Arrr! The winds carry no words today." ∧
    generatePirateEvent (.success (some "")) = "Arrr! The winds carry no words today." ∧
    ∀ s : String, s ≠ "" → generatePirateEvent (.success (some s)) = s := by
  refine ⟨rfl, rfl, by simp [generatePirateEvent], ?_⟩
  intro s hs
  simp [generatePirateEvent, hs]

/-- C8 witness: a nonempty response text is passed through unchanged. -/
theorem C8_fetch_never_crashes_witness :
    generatePirateEvent (.success (some "Yo ho ho")) = "Yo ho ho" :=
  C8_fetch_never_crashes.2.2.2 "Yo ho ho" (by decide)

/-- C4: when the player fires with elapsed cooldown (fire key down,
`cooldown ≤ 0`, player active, no pause), the broadside appends exactly 6
projectiles — the spec-described three per side at hull offsets
`{-15, -5, 5}`, lateral offset 16, fire direction `heading ± 90°` with an
independent spread of `±0.1 rad` each — plus exactly 6 muzzle-flash and 6
smoke particles, and resets the cooldown to `CANNON_COOLDOWN`.  The firing
pose `q` is the player's post-physics, post-recoil ship of that frame. -/
theorem C4_broadside_spawns_six (keys : Keys) (dt : ℝ) (r : PlayerRnd)
    (st : GameState) (hact : st.player.active = true) (hmsg : st.message = none)
    (hspace : keys.space = true) (hcd : st.player.cooldown ≤ 0)
    (hr : ∀ k : Fin 3,
      (0 ≤ (r.broadside.port k).spread ∧ (r.broadside.port k).spread < 1) ∧
      (0 ≤ (r.broadside.star k).spread ∧ (r.broadside.star k).spread < 1)) :
    ∃ q : Ship,
      (playerPhase keys dt r st).projectiles = st.projectiles ++
        [specBroadsideShot q (-1) (-15) (specCannonSpread (r.broadside.port 0).spread)
           ((r.broadside.port 0).shot.pid),
         specBroadsideShot q (-1) (-5) (specCannonSpread (r.broadside.port 1).spread)
           ((r.broadside.port 1).shot.pid),
         specBroadsideShot q (-1) 5 (specCannonSpread (r.broadside.port 2).spread)
           ((r.broadside.port 2).shot.pid),
         specBroadsideShot q 1 (-15) (specCannonSpread (r.broadside.star 0).spread)
           ((r.broadside.star 0).shot.pid),
         specBroadsideShot q 1 (-5) (specCannonSpread (r.broadside.star 1).spread)
           ((r.broadside.star 1).shot.pid),
         specBroadsideShot q 1 5 (specCannonSpread (r.broadside.star 2).spread)
           ((r.broadside.star 2).shot.pid)] ∧
      (playerPhase keys dt r st).projectiles.length = st.projectiles.length + 6 ∧
      ((playerPhase keys dt r st).particles.countP fun p => decide (p.ptype = .muzzle))
        = (st.particles.countP fun p => decide (p.ptype = .muzzle)) + 6 ∧
      ((playerPhase keys dt r st).particles.countP fun p => decide (p.ptype = .smoke))
        = (st.particles.countP fun p => decide (p.ptype = .smoke)) + 6 ∧
      (playerPhase keys dt r st).player.cooldown = CANNON_COOLDOWN ∧
      ∀ k : Fin 3, |specCannonSpread (r.broadside.port k).spread| ≤ 0.1 ∧
                   |specCannonSpread (r.broadside.star k).spread| ≤ 0.1 := by
  unfold playerPhase
  rw [if_pos ⟨hact, hmsg⟩]
  simp only []
  split_ifs
  · rename_i hA hB
    simp at hA
    linarith
  · rename_i hA hB
    simp at hA
    linarith
  · generalize applyShipPhysics st.player keys.w keys.a keys.d dt = P
    refine ⟨(fireBroadside { P with
        x := max 0 (min WORLD_SIZE P.x)
        y := max 0 (min WORLD_SIZE P.y) } Owner.player r.broadside).1,
      ?_, ?_, ?_, ?_, ?_, ?_⟩
    · show st.projectiles ++ _ = _
      unfold fireBroadside
      simp only []
      rw [fireCannons_port_projectiles, fireCannons_star_projectiles]
      simp
    · show (st.projectiles ++ _).length = _
      unfold fireBroadside
      simp only []
      rw [fireCannons_port_projectiles, fireCannons_star_projectiles]
      simp
    · show ((st.particles ++ _ ++ _).countP _) = _
      unfold fireBroadside
      simp only []
      simp [List.countP_append, shipWake_muzzle_count, fireCannons_muzzle_count]
    · show ((st.particles ++ _ ++ _).countP _) = _
      unfold fireBroadside
      simp only []
      simp [List.countP_append, shipWake_smoke_count, fireCannons_smoke_count]
    · simp
    · intro k
      exact ⟨specCannonSpread_bound (hr k).1.1 (hr k).1.2,
             specCannonSpread_bound (hr k).2.1 (hr k).2.2⟩
  · exfalso
    rename_i hA hB
    rw [hspace] at hB
    simp at hB
    linarith

/-- C4 witness: a broadside fired from the base state. -/
theorem C4_broadside_spawns_six_witness :
    (playerPhase keysSpace 1 playerRnd0 baseState).projectiles.length
      = baseState.projectiles.length + 6 ∧
    (playerPhase keysSpace 1 playerRnd0 baseState).player.cooldown = CANNON_COOLDOWN := by
  obtain ⟨q, -, h2, -, -, h5, -⟩ :=
    C4_broadside_spawns_six keysSpace 1 playerRnd0 baseState rfl rfl rfl
      (by norm_num [baseState, basePlayer])
      (by intro k; norm_num [playerRnd0, broadside0, cannon0])
  exact ⟨h2, h5⟩

/-- C5, counterexample: the claim says a spawn request is rejected exactly
when the number of *active* enemies exceeds the cap.  The concrete state
`c5State` holds nine dead (inactive) enemy records — dead enemies are never
removed from the store — so zero enemies are active, the cap is not exceeded,
and a far-enough candidate position is available; yet `spawnEnemy` rejects
(the state is unchanged), because the code tests `s.enemies.length > 8` on
the whole store. -/
theorem C5_counterexample :
    (c5State.enemies.countP fun e => e.active) = 0 ∧
    c5State.enemies.length = 9 ∧
    firstFarPos c5State.player.x c5State.player.y 1000
      (c5Rnd.cands.map fun c => (c.1 * WORLD_SIZE, c.2 * WORLD_SIZE))
      = some (3500, 2000) ∧
    spawnEnemy c5Rnd c5State = c5State := by
  refine ⟨?_, rfl, c5_firstFarPos, rfl⟩
  simp [c5State, deadEnemy]

/-- C5, amended: a spawn request is rejected exactly when the total number of
enemy records — active or not — exceeds 8; otherwise it appends one pirate at
the first sampled position at least 1000 units from the player, with full
health (`health = maxHealth = 40`) and zero velocity. -/
theorem C5_spawn_amended (r : SpawnRnd) (st : GameState) :
    (st.enemies.length > 8 → spawnEnemy r st = st) ∧
    (¬ st.enemies.length > 8 → ∀ pos : ℝ × ℝ,
      firstFarPos st.player.x st.player.y 1000
        (r.cands.map fun c => (c.1 * WORLD_SIZE, c.2 * WORLD_SIZE)) = some pos →
      (spawnEnemy r st).enemies = st.enemies ++
        [{ id := r.eid, x := pos.1, y := pos.2, radius := 30
           rotation := r.rot * π * 2, active := true, velocity := Vec.mk 0 0
           angularVelocity := 0, speed := 0, health := 40, maxHealth := 40
           cooldown := 0, stype := .pirate, wobbleOffset := r.wobble * 100 }] ∧
      1000 ≤ Real.sqrt ((pos.1 - st.player.x) ^ 2 + (pos.2 - st.player.y) ^ 2)) := by
  constructor
  · intro h
    unfold spawnEnemy
    rw [if_pos h]
  · intro h pos hfind
    constructor
    · unfold spawnEnemy
      rw [if_neg h, hfind]
    · exact not_lt.mp (firstFarPos_far _ _ _ _ _ hfind)

/-- C5 witness: the amended spawn behaviour on an empty store. -/
theorem C5_spawn_amended_witness :
    (spawnEnemy c5Rnd baseState).enemies.length = 1 := by
  have H := (C5_spawn_amended c5Rnd baseState).2 (by norm_num [baseState])
    (3500, 2000) c5_firstFarPos
  rw [H.1]
  simp [baseState]

/-- C7: in the thrust scenario (rest, heading 0, `thrustOn`, `dt = 1`, no
turning), the forward speed after `n` steps is
`0.99 * 15 * (1 - 0.99 ^ n)`; it increases monotonically, never exceeds the
drag-thrust equilibrium `SHIP_THRUST / (1 - FORWARD_DRAG) = 15` at all (in
particular not during the claim's 100 steps), and converges to
`FORWARD_DRAG * 15 = 14.85`, which sits `SHIP_THRUST = 0.15` (a 1% numerical
tolerance) below the claimed equilibrium value. -/
theorem C7_thrust_equilibrium :
    (∀ n : ℕ, c7ForwardSpeed n
        = FORWARD_DRAG * (SHIP_THRUST / (1 - FORWARD_DRAG)) * (1 - FORWARD_DRAG ^ n)) ∧
    (∀ n : ℕ, c7ForwardSpeed n ≤ c7ForwardSpeed (n + 1)) ∧
    (∀ n : ℕ, c7ForwardSpeed n < SHIP_THRUST / (1 - FORWARD_DRAG)) ∧
    Filter.Tendsto c7ForwardSpeed Filter.atTop
      (nhds (FORWARD_DRAG * (SHIP_THRUST / (1 - FORWARD_DRAG)))) ∧
    SHIP_THRUST / (1 - FORWARD_DRAG)
        - FORWARD_DRAG * (SHIP_THRUST / (1 - FORWARD_DRAG)) = SHIP_THRUST := by
  have hcf : ∀ n, c7ForwardSpeed n = 14.85 * (1 - 0.99 ^ n) := fun n =>
    (c7Iter_fields n).2.2.2
  refine ⟨?_, ?_, ?_, ?_, ?_⟩
  · intro n
    rw [hcf n]
    norm_num [FORWARD_DRAG, SHIP_THRUST]
  · intro n
    rw [hcf n, hcf (n + 1)]
    have h1 : (0.99:ℝ) ^ (n + 1) ≤ 0.99 ^ n := by
      rw [pow_succ]
      nlinarith [pow_nonneg (by norm_num : (0:ℝ) ≤ 0.99) n]
    nlinarith
  · intro n
    rw [hcf n]
    have h2 := pow_pos (by norm_num : (0:ℝ) < 0.99) n
    have hE : SHIP_THRUST / (1 - FORWARD_DRAG) = 15 := by
      norm_num [FORWARD_DRAG, SHIP_THRUST]
    rw [hE]
    nlinarith
  · have hL : FORWARD_DRAG * (SHIP_THRUST / (1 - FORWARD_DRAG)) = 14.85 := by
      norm_num [FORWARD_DRAG, SHIP_THRUST]
    rw [hL]
    have hbase : Filter.Tendsto (fun n : ℕ => (0.99:ℝ) ^ n) Filter.atTop (nhds 0) :=
      tendsto_pow_atTop_nhds_zero_of_lt_one (by norm_num) (by norm_num)
    have hmain : Filter.Tendsto (fun n : ℕ => 14.85 * (1 - (0.99:ℝ) ^ n))
        Filter.atTop (nhds (14.85 * (1 - 0))) :=
      (Filter.Tendsto.const_sub 1 hbase).const_mul 14.85
    refine Filter.Tendsto.congr (fun n => (hcf n).symm) ?_
    simpa using hmain
  · norm_num [FORWARD_DRAG, SHIP_THRUST]

/-- C9: the delta-time normalisation `min((t - lastTime) / 16.67, 2)` clamps
only from above at 2; for a frame whose timestamp precedes the previous one
the resulting `dt` is negative and is passed unchecked to the motion model
(the post-frame rotation is `applyShipPhysics`'s output at that `dt`), to the
cooldown decrement (the cooldown then grows), and to particle decay (a
non-glint particle's life then increases). -/
theorem C9_negative_dt_unclamped (t last : ℝ) (h : t < last) :
    computeDt t last < 0 ∧
    (∀ a b : ℝ, computeDt a b ≤ 2) ∧
    (∀ (keys : Keys) (r : FrameRnd) (st : GameState), st.lastTime = last →
      st.player.active = true → st.message = none →
      (update t keys r st).player.rotation =
        (applyShipPhysics st.player keys.w keys.a keys.d (computeDt t last)).rotation) ∧
    (∀ (keys : Keys) (r : FrameRnd) (st : GameState), st.lastTime = last →
      st.player.active = true → st.message = none → keys.space = false →
      st.player.cooldown > 0 →
      (update t keys r st).player.cooldown
          = st.player.cooldown - 1 * computeDt t last ∧
      (update t keys r st).player.cooldown > st.player.cooldown) ∧
    (∀ (p : Particle), ¬ p.ptype = .glint →
      p.life - 0.02 * computeDt t last > p.life) := by
  have hneg : computeDt t last < 0 := by
    have h1 : (t - last) / 16.67 < 0 := by
      apply div_neg_of_neg_of_pos (by linarith) (by norm_num)
    exact lt_of_le_of_lt (min_le_left _ _) h1
  refine ⟨hneg, fun a b => min_le_right _ _, ?_, ?_, ?_⟩
  · intro keys r st hlast hact hmsg
    rw [← hlast]
    exact update_player_rotation t keys r st hact hmsg
  · intro keys r st hlast hact hmsg hspace hcd
    have heq := update_player_cooldown t keys r st hact hmsg hspace hcd
    rw [hlast] at heq
    refine ⟨heq, ?_⟩
    rw [heq]
    nlinarith [hneg]
  · intro p _
    nlinarith [hneg]

/-- C9 witness: a timestamp one nominal frame in the past yields a negative
`dt` and an increased cooldown. -/
theorem C9_negative_dt_unclamped_witness :
    computeDt 0 16.67 < 0 ∧
    (update 0 keys0 frameRnd0 c9State).player.cooldown =
      c9State.player.cooldown - 1 * computeDt 0 16.67 := by
  have H := C9_negative_dt_unclamped 0 16.67 (by norm_num)
  exact ⟨H.1, (H.2.2.2.1 keys0 frameRnd0 c9State rfl rfl rfl rfl
    (by norm_num [c9State, basePlayer])).1⟩

/-- C10: every projectile is created with `damage = 10`; the stored damage
field never influences any health change.  (i) `spawnProjectile` always sets
`damage = 10`.  (ii) For every projectile — whatever its damage field — an
enemy-owned projectile that hits the active player deducts exactly 8 from the
player's health, and (iii) a player-owned projectile that strikes an active
enemy deducts exactly 15 from that enemy's health.  (iv) A whole frame update
is congruent with respect to erasing every stored damage value
(`eqUpToDamage`), so the resulting player health, player-alive flag and enemy
healths are identical for any two states differing only in damage fields. -/
theorem C10_damage_field_unused :
    (∀ (x y angle : ℝ) (o : Owner) (r : ShotRnd),
        (spawnProjectile x y angle o r).2.damage = 10) ∧
    (∀ (dt : ℝ) (r : ProjRnd) (st : GameState) (i : ℕ) (proj : Projectile),
        st.projectiles.get? i = some proj →
        proj.owner = Owner.enemy →
        st.player.active = true →
        ¬(proj.x + proj.velocity.x * dt < (0:ℝ)
          ∨ proj.x + proj.velocity.x * dt > WORLD_SIZE
          ∨ proj.y + proj.velocity.y * dt < (0:ℝ)
          ∨ proj.y + proj.velocity.y * dt > WORLD_SIZE) →
        checkCollision (proj.x + proj.velocity.x * dt) (proj.y + proj.velocity.y * dt)
          proj.radius st.player.x st.player.y st.player.radius →
        (processProj dt r st i).player.health = st.player.health - 8) ∧
    (∀ (px py pr : ℝ) (e : Ship) (es : List Ship),
        e.active = true → checkCollision px py pr e.x e.y e.radius →
        ((strikeFirst px py pr (e :: es)).1.head?.map Ship.health)
          = some (e.health - 15)) ∧
    (∀ (t : ℝ) (keys : Keys) (r : FrameRnd) (a b : GameState),
        eqUpToDamage a b →
        (update t keys r a).player.health = (update t keys r b).player.health ∧
        (update t keys r a).player.active = (update t keys r b).player.active ∧
        (update t keys r a).enemies.map Ship.health
          = (update t keys r b).enemies.map Ship.health) := by
  refine ⟨fun x y angle o r => rfl, processProj_player_hit, strikeFirst_head_health,
    fun t keys r a b h => ?_⟩
  have hu := update_rel t keys r h
  exact ⟨congrArg Ship.health hu.1, congrArg Ship.active hu.1,
    congrArg (List.map Ship.health) hu.2.1⟩

/-- C10 witness: the concrete hit deltas and, for two states identical except
for a cannonball's damage field (10 in `c1State`, 999 in `c10State`), equal
player healths after a full frame. -/
theorem C10_damage_field_unused_witness :
    (processProj 1 projRnd0 c1State 0).player.health = c1State.player.health - 8 ∧
    ((strikeFirst 2000 2010 3 [c10Enemy]).1.head?.map Ship.health)
      = some (c10Enemy.health - 15) ∧
    (update 16.67 keys0 frameRnd0 c1State).player.health
      = (update 16.67 keys0 frameRnd0 c10State).player.health :=
  ⟨C10_damage_field_unused.2.1 1 projRnd0 c1State 0 _ rfl rfl rfl
      (by norm_num [c1State, baseState, basePlayer, WORLD_SIZE])
      (by norm_num [checkCollision, c1State, baseState, basePlayer, sqrt_hundred]),
   C10_damage_field_unused.2.2.1 2000 2010 3 c10Enemy []
      rfl (by norm_num [checkCollision, c10Enemy]),
   (C10_damage_field_unused.2.2.2 16.67 keys0 frameRnd0 c1State c10State
      ⟨rfl, rfl, rfl, rfl, rfl, rfl, rfl, rfl, rfl, rfl, rfl, rfl, rfl, rfl, rfl⟩).1⟩

end

end SantaPirate
